import Mathlib

/-!
Verification development for the bikepacking-tracker ingestion engine
(`app/routers/spot.py`, `app/routers/tracks.py`).

The Python source is shallowly embedded: JSON values become an inductive
tree `J` with Python truthiness, machine floats become `Rat` (the usual
real-arithmetic abstraction of IEEE floats for the exact decimal literals
involved), timestamps become an explicit inductive over epoch seconds,
and every database interaction is explicit state / environment passing.
-/

namespace BT

/-- A JSON value as produced by `response.json()` in Python.
JSON `null` is collapsed into absence (`Option`) by the dictionary
lookup `pget`, matching Python where a JSON null and a missing key both
surface as `None` from `dict.get`.  Booleans are included for
completeness of the tree. -/
inductive J where
  | str (s : String)
  | num (q : Rat)
  | bool (b : Bool)
  | null
  | arr (xs : List J)
  | obj (kvs : List (String × J))

/-- Python truthiness of a JSON value: `None`/`null`, `0`, `""`,
`[]`, `{}` and `False` are falsy. -/
def J.truthy : J → Bool
  | .str s => s ≠ ""
  | .num q => q ≠ 0
  | .bool b => b
  | .null => false
  | .arr xs => !xs.isEmpty
  | .obj kvs => !kvs.isEmpty

/-- Truthiness of an optional value (`None` is falsy). -/
def otruthy : Option J → Bool
  | none => false
  | some j => j.truthy

/-- Python `a or b` on optional JSON values: returns `a` when truthy,
else `b` (which may itself be falsy or `None`). -/
def pyOr (a b : Option J) : Option J :=
  if otruthy a then a else b

/-- `dict.get(k)`: first binding of `k` in the object; JSON `null`
collapses to absence (Python `None`).  Only called on objects in the
modelled code paths; the embedding of the callers tracks the
non-object case as a Python exception where it matters. -/
def pget (kvs : List (String × J)) (k : String) : Option J :=
  match (kvs.find? (fun kv => kv.1 = k)).map Prod.snd with
  | some .null => none
  | o => o

/-- Characters `0`–`9`. -/
def isDigit (c : Char) : Bool := '0' ≤ c ∧ c ≤ '9'

def digitVal (c : Char) : Nat := c.toNat - '0'.toNat

/-- Leading digit run as (digit list, rest). -/
def splitDigits : List Char → List Char × List Char
  | [] => ([], [])
  | c :: cs =>
    if isDigit c then
      let (ds, rest) := splitDigits cs
      (c :: ds, rest)
    else ([], c :: cs)

/-- Numeric value of a digit list (most significant first). -/
def digitsVal (ds : List Char) : Nat :=
  ds.foldl (fun acc c => acc * 10 + digitVal c) 0

/-- Python `int(s)` on a string: optional surrounding spaces, optional
sign, then decimal digits (underscore grouping and other bases are not
used by the modelled inputs). `none` models `ValueError`. -/
def parseIntStr (s : String) : Option Int :=
  let cs := s.toList.dropWhile (· = ' ')
  let (neg, cs) :=
    match cs with
    | '-' :: rest => (true, rest)
    | '+' :: rest => (false, rest)
    | _ => (false, cs)
  let (ds, rest) := splitDigits cs
  if ds = [] ∨ rest.dropWhile (· = ' ') ≠ [] then none
  else some (if neg then -(digitsVal ds : Int) else (digitsVal ds : Int))

/-- Python `float(s)` on a string: optional surrounding spaces, sign,
digits with an optional fractional part (the exponent / infinity / nan
forms never occur in the modelled feeds and are left out). `none`
models `ValueError`. -/
def parseFloatStr (s : String) : Option Rat :=
  let cs := s.toList.dropWhile (· = ' ')
  let (neg, cs) :=
    match cs with
    | '-' :: rest => (true, rest)
    | '+' :: rest => (false, rest)
    | _ => (false, cs)
  let (ds, rest) := splitDigits cs
  let (fs, rest2) :=
    match rest with
    | '.' :: more => splitDigits more
    | _ => ([], rest)
  if (ds = [] ∧ fs = []) ∨ (rest ≠ [] ∧ rest.head? ≠ some '.')
      ∨ rest2.dropWhile (· = ' ') ≠ [] then none
  else
    let q : Rat := (digitsVal ds : Rat) + (digitsVal fs : Rat) / ((10 : Rat) ^ fs.length)
    some (if neg then -q else q)

/-- `_safe_float(x)` from `app/routers/spot.py`: `None` and `""` give
`None`; otherwise `float(x)` with every exception caught to `None`
(so lists, dicts and unparsable strings all give `None`;
`float(True) = 1.0`). -/
def safeFloat : Option J → Option Rat
  | none => none
  | some (.str s) => if s = "" then none else parseFloatStr s
  | some (.num q) => some q
  | some (.bool b) => some (if b then 1 else 0)
  | some .null => none
  | some (.arr _) => none
  | some (.obj _) => none

/-! ### Timestamps (`_parse_dt` in `app/routers/spot.py`) -/

/-- A parsed aware `datetime` (components plus a UTC offset in
seconds), as produced by `strptime`/`fromisoformat`. -/
structure DT where
  year : Nat
  month : Nat
  day : Nat
  hour : Nat
  minute : Nat
  second : Nat
  micro : Nat
  tzSec : Int
deriving Repr, DecidableEq

def isLeap (y : Nat) : Bool := y % 4 = 0 ∧ (y % 100 ≠ 0 ∨ y % 400 = 0)

def daysInMonth (y m : Nat) : Nat :=
  if m = 2 then (if isLeap y then 29 else 28)
  else if m = 4 ∨ m = 6 ∨ m = 9 ∨ m = 11 then 30
  else 31

/-- The range checks `datetime.__new__` and `timezone` perform; a parse
whose matched fields fail them raises `ValueError`, which the source
catches, so the whole format attempt fails. -/
def dtValid (d : DT) : Bool :=
  1 ≤ d.year ∧ d.year ≤ 9999 ∧ 1 ≤ d.month ∧ d.month ≤ 12 ∧
  1 ≤ d.day ∧ d.day ≤ daysInMonth d.year d.month ∧
  d.hour ≤ 23 ∧ d.minute ≤ 59 ∧ d.second ≤ 59 ∧ d.micro ≤ 999999 ∧
  -86400 < d.tzSec ∧ d.tzSec < 86400

/-- Parse exactly `n` leading digits. -/
def pExactDigits : Nat → List Char → Option (Nat × List Char)
  | 0, cs => some (0, cs)
  | n + 1, c :: cs =>
    if isDigit c then
      (pExactDigits n cs).map (fun (v, rest) => (digitVal c * 10 ^ n + v, rest))
    else none
  | _ + 1, [] => none

/-- A one-or-two-digit `strptime` field, mirroring CPython's regexes
such as `1[0-2]|0[1-9]|[1-9]` for `%m`: take two digits when their
value satisfies `ok2`, else one digit satisfying `ok1`. -/
def pTwoOrOne (ok2 ok1 : Nat → Bool) : List Char → Option (Nat × List Char)
  | c1 :: c2 :: rest =>
    if isDigit c1 ∧ isDigit c2 ∧ ok2 (digitVal c1 * 10 + digitVal c2) then
      some (digitVal c1 * 10 + digitVal c2, rest)
    else if isDigit c1 ∧ ok1 (digitVal c1) then some (digitVal c1, c2 :: rest)
    else none
  | [c1] => if isDigit c1 ∧ ok1 (digitVal c1) then some (digitVal c1, []) else none
  | [] => none

def pLit (c : Char) : List Char → Option (List Char)
  | c' :: rest => if c' = c then some rest else none
  | [] => none

/-- `%z`: `Z`, or `[+-]HH[:]MM` with optional `[:]SS` and fractional
seconds (CPython `(?P<z>[+-]\d\d:?[0-5]\d(:?[0-5]\d(\.\d{1,6})?)?|Z)`).
Returns the offset in seconds. -/
def pTzZ : List Char → Option (Int × List Char)
  | 'Z' :: rest => some (0, rest)
  | c :: rest =>
    if c = '+' ∨ c = '-' then do
      let (hh, r1) ← pExactDigits 2 rest
      let r1 := match r1 with | ':' :: more => more | _ => r1
      let (mm, r2) ← pExactDigits 2 r1
      if mm ≥ 60 then none else
      let (ss, r3) :=
        match (match r2 with | ':' :: more => more | _ => r2) with
        | a :: b :: more =>
          if isDigit a ∧ digitVal a ≤ 5 ∧ isDigit b then
            (digitVal a * 10 + digitVal b,
             match more with
             | '.' :: m2 =>
               let (fs, m3) := splitDigits m2
               if 1 ≤ fs.length ∧ fs.length ≤ 6 then m3 else '.' :: m2
             | _ => more)
          else (0, r2)
        | _ => (0, r2)
      let sign : Int := if c = '-' then -1 else 1
      some (sign * ((hh : Int) * 3600 + (mm : Int) * 60 + (ss : Int)), r3)
    else none
  | [] => none

/-- `strptime` with format `%Y-%m-%dT%H:%M:%S%z` (must consume the
whole string, then pass the `datetime` range checks). -/
def strptimeFmt1 (s : String) : Option DT := do
  let cs := s.toList
  let (y, r) ← pExactDigits 4 cs
  let r ← pLit '-' r
  let (mo, r) ← pTwoOrOne (fun v => 1 ≤ v ∧ v ≤ 12) (fun v => 1 ≤ v ∧ v ≤ 9) r
  let r ← pLit '-' r
  let (d, r) ← pTwoOrOne (fun v => 1 ≤ v ∧ v ≤ 31) (fun v => 1 ≤ v ∧ v ≤ 9) r
  let r ← pLit 'T' r
  let (h, r) ← pTwoOrOne (fun v => v ≤ 23) (fun _ => true) r
  let r ← pLit ':' r
  let (mi, r) ← pTwoOrOne (fun v => v ≤ 59) (fun _ => true) r
  let r ← pLit ':' r
  let (se, r) ← pTwoOrOne (fun v => v ≤ 61) (fun _ => true) r
  let (z, r) ← pTzZ r
  if r = [] then
    let dt : DT := ⟨y, mo, d, h, mi, se, 0, z⟩
    if dtValid dt then some dt else none
  else none

/-- `strptime` with format `%Y-%m-%dT%H:%M:%S.%f%z`. -/
def strptimeFmt2 (s : String) : Option DT := do
  let cs := s.toList
  let (y, r) ← pExactDigits 4 cs
  let r ← pLit '-' r
  let (mo, r) ← pTwoOrOne (fun v => 1 ≤ v ∧ v ≤ 12) (fun v => 1 ≤ v ∧ v ≤ 9) r
  let r ← pLit '-' r
  let (d, r) ← pTwoOrOne (fun v => 1 ≤ v ∧ v ≤ 31) (fun v => 1 ≤ v ∧ v ≤ 9) r
  let r ← pLit 'T' r
  let (h, r) ← pTwoOrOne (fun v => v ≤ 23) (fun _ => true) r
  let r ← pLit ':' r
  let (mi, r) ← pTwoOrOne (fun v => v ≤ 59) (fun _ => true) r
  let r ← pLit ':' r
  let (se, r) ← pTwoOrOne (fun v => v ≤ 61) (fun _ => true) r
  let r ← pLit '.' r
  let (fs, r) := splitDigits r
  if fs = [] ∨ fs.length > 6 then none else
  let micro := digitsVal fs * 10 ^ (6 - fs.length)
  let (z, r) ← pTzZ r
  if r = [] then
    let dt : DT := ⟨y, mo, d, h, mi, se, micro, z⟩
    if dtValid dt then some dt else none
  else none

/-- CPython `_parse_hh_mm_ss_ff`: `HH[:MM[:SS[.fff|.ffffff]]]`,
each component exactly two digits, fraction exactly 3 or 6 digits,
consuming the whole input. Returns (hh, mm, ss, microseconds). -/
def parseHMSF (cs : List Char) : Option (Nat × Nat × Nat × Nat) := do
  let (hh, r) ← pExactDigits 2 cs
  match r with
  | [] => some (hh, 0, 0, 0)
  | ':' :: r1 => do
    let (mm, r2) ← pExactDigits 2 r1
    match r2 with
    | [] => some (hh, mm, 0, 0)
    | ':' :: r3 => do
      let (ss, r4) ← pExactDigits 2 r3
      match r4 with
      | [] => some (hh, mm, ss, 0)
      | '.' :: r5 =>
        let (fs, r6) := splitDigits r5
        if r6 = [] ∧ (fs.length = 3 ∨ fs.length = 6) then
          some (hh, mm, ss, digitsVal fs * (if fs.length = 3 then 1000 else 1))
        else none
      | _ => none
    | _ => none
  | _ => none

/-- `datetime.fromisoformat` (CPython ≤ 3.10 grammar):
`YYYY-MM-DD[<sep>HH[:MM[:SS[.fff|.ffffff]]][±HH:MM[:SS[.ffffff]]]]`.
The source only reaches it behind an `endswith("+00:00")` guard, so a
string that parses here always carries an explicit UTC offset; the
naive (offset-less) outcomes, unreachable behind that guard, are
mapped to `none`, as are fractional-second offsets (impossible for a
`+00:00` suffix). -/
def fromisoformatPy (s : String) : Option DT := do
  let cs := s.toList
  if cs.length < 10 then none else do
  let (y, r) ← pExactDigits 4 (cs.take 10)
  let r ← pLit '-' r
  let (mo, r) ← pExactDigits 2 r
  let r ← pLit '-' r
  let (d, _) ← pExactDigits 2 r
  if cs.length = 10 then none
  else do
    let tcs := cs.drop 11
    let tzIdx :=
      match tcs.findIdx? (· = '-') with
      | some i => some i
      | none => tcs.findIdx? (· = '+')
    let (timePart, tzPart) :=
      match tzIdx with
      | some i => (tcs.take i, tcs.drop i)
      | none => (tcs, [])
    let (hh, mm, ss, ff) ← parseHMSF timePart
    if tzPart = [] then none
    else if tzPart.length = 6 ∨ tzPart.length = 9 ∨ tzPart.length = 16 then do
      let (th, tm, ts2, tf) ← parseHMSF (tzPart.drop 1)
      if tf ≠ 0 then none else
      let sgn : Int := if tzPart.head? = some '-' then -1 else 1
      let off : Int := sgn * ((th : Int) * 3600 + (tm : Int) * 60 + (ts2 : Int))
      let dt : DT := ⟨y, mo, d, hh, mm, ss, ff, off⟩
      if dtValid dt then some dt else none
    else none

/-- The value `_parse_dt` resolves to: an exact epoch second
(`datetime.fromtimestamp(int(unix), tz=utc)`), a textual parse, or the
ingestion wall clock (`datetime.now(utc)`), kept abstract. -/
inductive PyDatetime where
  | fromUnix (epochSec : Int)
  | fromStr (d : DT)
  | nowFallback
deriving Repr, DecidableEq

/-- Python `int(x)` on a JSON value: strings parse strictly, floats
truncate toward zero, `None`/lists/dicts raise (here `none`). -/
def pyIntOfJ : J → Option Int
  | .str s => parseIntStr s
  | .num q => some (if q ≥ 0 then q.floor else q.ceil)
  | .bool b => some (if b then 1 else 0)
  | .null => none
  | .arr _ => none
  | .obj _ => none

/-- Python `s.endswith(suffix)`. -/
def pyEndsWith (s suffix : String) : Bool :=
  let l := s.toList
  let t := suffix.toList
  l.drop (l.length - t.length) == t ∧ t.length ≤ l.length

/-- `datetime.fromtimestamp(n, tz=utc)` succeeds exactly for epochs
whose UTC datetime lies in year 1..9999; outside it raises, which the
source catches and falls through. -/
def fromtimestampOk (n : Int) : Bool := -62135596800 ≤ n ∧ n ≤ 253402300799

/-- `_parse_dt(unix, date_str)` from `app/routers/spot.py` lines
88-108: prefer a truthy, int-parsable, in-range `unixTime`; else try
the two `strptime` layouts on a truthy `dateTime`; else, for strings
ending in `"+00:00"`, one `fromisoformat` attempt; else `now`.
Non-string truthy `date_str` values raise inside the per-attempt
`try` blocks and so fall through to `now`. -/
def unixResolution (unix : Option J) : Option Int :=
  if otruthy unix then
    match unix with
    | some u =>
      match pyIntOfJ u with
      | some n => if fromtimestampOk n then some n else none
      | none => none
    | none => none
  else none

def parse_dt (unix dateStr : Option J) : PyDatetime :=
  match unixResolution unix with
  | some n => .fromUnix n
  | none =>
    if otruthy dateStr then
      match dateStr with
      | some (.str s) =>
        match strptimeFmt1 s with
        | some d => .fromStr d
        | none =>
          match strptimeFmt2 s with
          | some d => .fromStr d
          | none =>
            if pyEndsWith s "+00:00" then
              match fromisoformatPy s with
              | some d => .fromStr d
              | none => .nowFallback
            else .nowFallback
      | _ => .nowFallback
    else .nowFallback

/-! ### Feed normalization (`parse_spot_json`, `parse_spot_xml`) -/

/-- Python-level exceptions surfaced by the parsing pipeline (all other
exception sites are caught locally in the source). -/
inductive PyErr where
  | attrError
  | typeError
deriving Repr, DecidableEq

def isSpaceCh (c : Char) : Bool := c = ' ' ∨ c = '\t' ∨ c = '\n' ∨ c = '\r'

/-- Python `s.strip()`. -/
def stripStr (s : String) : String :=
  ⟨((s.toList.dropWhile isSpaceCh).reverse.dropWhile isSpaceCh).reverse⟩

/-- Python `str(x)` for JSON values.  The exact repr of non-integer
numbers and containers is irrelevant to every modelled property (the
result is only stored opaquely), so those cases use fixed stand-ins;
what matters is preserved: `str` never raises and never returns an
empty string except for `str("")`. -/
def pyStr : J → String
  | .str s => s
  | .num q => if q.den = 1 then toString q.num else toString q
  | .bool b => if b then "True" else "False"
  | .null => "None"
  | .arr _ => "[list]"
  | .obj _ => "{dict}"

/-- Raw dictionary lookup (JSON `null` kept). -/
def pgetRaw (kvs : List (String × J)) (k : String) : Option J :=
  (kvs.find? (fun kv => kv.1 = k)).map Prod.snd

def collapseNull : Option J → Option J
  | some .null => none
  | o => o

/-- `m.get(k)` on a general value: `AttributeError` unless `m` is a
dict. -/
def mget (m : J) (k : String) : Except PyErr (Option J) :=
  match m with
  | .obj kvs => .ok (pget kvs k)
  | _ => .error .attrError

/-- `m.get(k, default)`: the default applies only when the key is
absent (a stored JSON `null` is returned as-is). -/
def mgetD (m : J) (k : String) (dflt : J) : Except PyErr J :=
  match m with
  | .obj kvs => .ok ((pgetRaw kvs k).getD dflt)
  | _ => .error .attrError

/-- `.strip()` on an arbitrary value: `AttributeError` unless a
string. -/
def stripPy : J → Except PyErr String
  | .str s => .ok (stripStr s)
  | _ => .error .attrError

/-- The normalized message dictionary both feed parsers produce:
`{lat, lon, z, ts, speed_kph, battery, msg_type, esn, message_id}`.
`lat`/`lon` are `Option` because `insert_positions` accepts arbitrary
such dictionaries and guards `None` coordinates itself; the parsers
only ever emit them filled. -/
structure PosMsg where
  lat : Option Rat
  lon : Option Rat
  z : Option Rat
  ts : PyDatetime
  speed_kph : Option Rat
  battery : Option String
  msg_type : Option String
  esn : Option String
  message_id : Option String
deriving Repr, DecidableEq

/-- `(x or "").strip() or None` applied to an optional value. -/
def stripOrNone (v : Option J) : Except PyErr (Option String) := do
  let t ← stripPy ((pyOr v (some (.str ""))).getD (.str ""))
  pure (if t = "" then none else some t)

/-- Field extraction for one JSON feed message (`parse_spot_json` loop
body, `app/routers/spot.py` lines 139-158).  `.ok none` is a silent
drop (missing coordinate); `.error` is an uncaught Python exception
(e.g. `.get` on a non-dict message). -/
def extractJsonMsg (m : J) : Except PyErr (Option PosMsg) := do
  let lat := safeFloat (pyOr (← mget m "latitude") (← mget m "lat"))
  let lon := safeFloat (pyOr (← mget m "longitude")
      (pyOr (← mget m "lng") (← mget m "lon")))
  let z := safeFloat (pyOr (← mget m "altitude") (← mget m "alt"))
  let speed := safeFloat (← mget m "speed")
  let battery ← stripOrNone (pyOr (← mget m "batteryState") (← mget m "battery"))
  let msgType ← stripOrNone (pyOr (← mget m "messageType") (← mget m "type"))
  let esn ← stripOrNone (pyOr (← mget m "esn") (← mget m "messengerId"))
  let midS := stripStr (pyStr ((pyOr (← mget m "id")
      (pyOr (← mget m "messageId") (some (.str "")))).getD (.str "")))
  let mid := if midS = "" then none else some midS
  let ts := parse_dt (← mget m "unixTime") (pyOr (← mget m "dateTime") (← mget m "time"))
  match lat, lon with
  | some la, some lo =>
    pure (some ⟨some la, some lo, z, ts, speed, battery, msgType, esn, mid⟩)
  | _, _ => pure none

/-- The sequential extraction loop `for m in items: ...` — the first
uncaught exception aborts the whole parse. -/
def mapExcept {α β ε : Type} (f : α → Except ε β) : List α → Except ε (List β)
  | [] => .ok []
  | x :: xs => do
    let y ← f x
    let ys ← mapExcept f xs
    pure (y :: ys)

/-- `parse_spot_json(payload)` (`app/routers/spot.py` lines 120-159):
probe the known nesting aliases for the message collection, wrap a
lone message dict in a list, extract each message, silently dropping
those without both coordinates.  Python's `or` short-circuits; the
eager evaluation of the second `get` below raises in exactly the same
situations, since both calls share the receiver. -/
def parse_spot_json (payload : J) : Except PyErr (List PosMsg) := do
  let p0 ← mget payload "response"
  let res : J := (pyOr p0 (some payload)).getD payload
  let a ← mget res "feedMessageResponse"
  let b ← mget res "messages"
  let fmr : J := (pyOr a (pyOr b (some res))).getD res
  let msgsV ← mgetD fmr "messages" (J.obj [])
  let items0 : Option J :=
    match msgsV with
    | .obj kvs => pget kvs "message"
    | v => collapseNull (some v)
  let items1 : Option J ←
    match items0 with
    | none => mget fmr "message"
    | some v => pure (some v)
  match items1 with
  | none => pure []
  | some items2 =>
    let xs : List J ←
      match items2 with
      | .obj kvs => pure [J.obj kvs]
      | .arr l => pure l
      | .str s => pure (s.toList.map (fun c => J.str ⟨[c]⟩))
      | _ => .error .typeError
    let outs ← mapExcept extractJsonMsg xs
    pure (outs.filterMap id)

/-- One `<message>` element of the XML feed: `g(tag)` returns the
stripped element text, or `None` when the element or its text is
absent (`parse_spot_xml`, `app/routers/spot.py` lines 171-174). -/
structure XmlMsg where
  latitude : Option String
  lat : Option String
  longitude : Option String
  lng : Option String
  lon : Option String
  altitude : Option String
  alt : Option String
  speed : Option String
  batteryState : Option String
  battery : Option String
  messageType : Option String
  type : Option String
  esn : Option String
  messengerId : Option String
  id : Option String
  messageId : Option String
  unixTime : Option String
  dateTime : Option String
  time : Option String
deriving Repr, DecidableEq

/-- Lift `g(tag)`'s stripped-text result to a JSON-ish value for the
shared helpers. -/
def xf : Option String → Option J := Option.map J.str

/-- `parse_spot_xml`'s per-message extraction (lines 176-192); the
values are already strings, so the `.strip()` chains cannot raise. -/
def extractXmlMsg (m : XmlMsg) : Option PosMsg :=
  let lat := safeFloat (pyOr (xf m.latitude) (xf m.lat))
  let lon := safeFloat (pyOr (xf m.longitude) (pyOr (xf m.lng) (xf m.lon)))
  let z := safeFloat (pyOr (xf m.altitude) (xf m.alt))
  let speed := safeFloat (xf m.speed)
  let battery :=
    let t := stripStr (((pyOr (xf m.batteryState) (pyOr (xf m.battery) (some (.str ""))))
        |>.getD (.str "")) |> pyStr)
    if t = "" then none else some t
  let msgType :=
    let t := stripStr (((pyOr (xf m.messageType) (pyOr (xf m.type) (some (.str ""))))
        |>.getD (.str "")) |> pyStr)
    if t = "" then none else some t
  let esnV :=
    let t := stripStr (((pyOr (xf m.esn) (pyOr (xf m.messengerId) (some (.str ""))))
        |>.getD (.str "")) |> pyStr)
    if t = "" then none else some t
  let mid :=
    let t := stripStr (((pyOr (xf m.id) (pyOr (xf m.messageId) (some (.str ""))))
        |>.getD (.str "")) |> pyStr)
    if t = "" then none else some t
  let ts := parse_dt (xf m.unixTime) (pyOr (xf m.dateTime) (xf m.time))
  match lat, lon with
  | some la, some lo => some ⟨some la, some lo, z, ts, speed, battery, msgType, esnV, mid⟩
  | _, _ => none

/-- `parse_spot_xml` over the `<message>` nodes `findall(".//message")`
located in the document. -/
def parse_spot_xml (msgs : List XmlMsg) : List PosMsg :=
  msgs.filterMap extractXmlMsg

/-! ### Schema catalog (`get_columns`, `get_column_types`,
`get_column_constraints`, `get_enum_labels`, `get_geom_info`) -/

/-- Per-column metadata as read from `information_schema.columns`. -/
structure ColInfo where
  data_type : String
  udt_name : String
  is_nullable : String
  column_default : Option String
deriving Repr, DecidableEq

/-- One table's introspected shape. -/
structure TableSchema where
  cols : List (String × ColInfo)
deriving Repr, DecidableEq

def TableSchema.names (t : TableSchema) : List String := t.cols.map Prod.fst

/-- `get_column_types(...).get(c, ("", ""))`. -/
def TableSchema.typesOf (t : TableSchema) (c : String) : String × String :=
  match t.cols.find? (fun kv => kv.1 = c) with
  | some (_, i) => (i.data_type, i.udt_name)
  | none => ("", "")

/-- `get_column_constraints(...).get(c, {}).get("is_nullable")`. -/
def TableSchema.nullableOf (t : TableSchema) (c : String) : Option String :=
  (t.cols.find? (fun kv => kv.1 = c)).map (fun kv => kv.2.is_nullable)

/-- `get_column_constraints(...).get(c, {}).get("column_default")`. -/
def TableSchema.defaultOf (t : TableSchema) (c : String) : Option String :=
  (t.cols.find? (fun kv => kv.1 = c)).bind (fun kv => kv.2.column_default)

/-- `get_enum_labels(db, type_name)`: the ordered labels, `[]` when the
type is unknown (the query just returns no rows). -/
def enumLabelsOf (enums : List (String × List String)) (udt : String) : List String :=
  ((enums.find? (fun kv => kv.1 = udt)).map Prod.snd).getD []

/-- A genuine store failure while querying (connectivity, bad SQL,
missing `geometry_columns` view, ...). -/
inductive QueryErr where
  | dbFailure
deriving Repr, DecidableEq

/-- Python `int(x or d)` for a nullable integer column value: `0` and
NULL both fall back to the default. -/
def pyIntOrI (o : Option Int) (d : Int) : Int :=
  match o with
  | some v => if v = 0 then d else v
  | none => d

/-- `get_geom_info` (`app/routers/spot.py` lines 60-83 and
`app/routers/tracks.py` lines 64-86): queries `geometry_columns` for
`(coord_dimension, srid)`.  The whole body sits in
`try: ... except Exception: pass`, so a failing query is swallowed and
the default `(2, 4326)` is returned — the function never raises.
The result type still exposes the exception surface (`Except`) so that
propagation behaviour is statable. -/
def get_geom_info (q : Except QueryErr (Option (Option Int × Option Int))) :
    Except QueryErr (Int × Int) :=
  .ok (match q with
    | .ok (some (d, s)) => (pyIntOrI d 2, pyIntOrI s 4326)
    | _ => (2, 4326))

/-- Total value of `get_geom_info` (it is always `.ok`). -/
def geomInfoVal (q : Except QueryErr (Option (Option Int × Option Int))) : Int × Int :=
  match q with
  | .ok (some (d, s)) => (pyIntOrI d 2, pyIntOrI s 4326)
  | _ => (2, 4326)

/-! ### Device resolver (`ensure_spot_device_for_user`) -/

/-- A `devices` row over the columns the resolver touches.  Columns a
given deployment's schema lacks are `none` throughout; a column the
`INSERT` did not mention is stored as `none` (none of the modelled
lookup columns carry server defaults in the known schema variants). -/
structure DeviceRow where
  id : String
  user_id : Option String
  type : Option String
  provider : Option String
  external_id : Option String
  name : Option String
  status : Option String
deriving Repr, DecidableEq

/-- Mutable device-table state: the rows plus a fresh-uuid supply
(`uuid.uuid4()` modelled as a counter). -/
structure DevState where
  rows : List DeviceRow
  nextId : Nat
deriving Repr, DecidableEq

def freshId (st : DevState) : String := "uuid-" ++ toString st.nextId

def truthyS : Option String → Bool
  | some s => s ≠ ""
  | none => false

/-- `next((l for l in labels if l.lower() == "spot"), labels[0] if labels else None)`
and its `"active"` twin. -/
def preferLabel (labels : List String) (want : String) : Option String :=
  match labels.find? (fun l => l.toLower = want) with
  | some l => some l
  | none => labels.head?

/-- The provider-style column value chosen for a possibly-enum column
(`type` / `provider` / `status` blocks of `ensure_spot_device_for_user`):
enum columns get the preferred live label (else the first label, else
`None` for an empty enum); plain columns get the literal. -/
def enumColVal (dev : TableSchema) (enums : List (String × List String))
    (col litVal want : String) : Option String :=
  if dev.names.contains col then
    let (dt, udt) := dev.typesOf col
    if dt = "USER-DEFINED" ∧ udt ≠ "" then preferLabel (enumLabelsOf enums udt) want
    else some litVal
  else none

def externalIdVal (dev : TableSchema) (esn : Option String) : Option String :=
  if dev.names.contains "external_id" then
    some (if truthyS esn then esn.getD "" else "unknown")
  else none

def nameVal (dev : TableSchema) (esn : Option String) : Option String :=
  if dev.names.contains "name" then
    some (if truthyS esn then "SPOT " ++ esn.getD "" else "SPOT device")
  else none

/-- Lookup (a): exact `(provider, external_id)` match, additionally
scoped to the user when a `user_id` column exists
(lines 536-545). -/
def lookupByProvider (dev : TableSchema) (st : DevState) (uid : String)
    (pv ev : Option String) : Option String :=
  if dev.names.contains "provider" ∧ dev.names.contains "external_id" ∧
      dev.names.contains "id" ∧ truthyS pv ∧ truthyS ev then
    (st.rows.find? (fun r =>
      r.provider == pv ∧ r.external_id == ev ∧
      (!dev.names.contains "user_id" ∨ r.user_id == some uid))).map (fun r => r.id)
  else none

/-- Lookup (b): fallback on `(user_id, name)`, using whichever of the
two columns exists (lines 547-556); with neither, no lookup runs. -/
def lookupByUserName (dev : TableSchema) (st : DevState) (uid : String)
    (nv : Option String) : Option String :=
  let useUid := dev.names.contains "user_id"
  let useName := dev.names.contains "name" ∧ truthyS nv
  if useUid ∨ useName then
    (st.rows.find? (fun r =>
      (!useUid ∨ r.user_id == some uid) ∧ (!useName ∨ r.name == nv))).map (fun r => r.id)
  else none

/-- The `add(col, value)` closure (lines 562-568): bind the column if
it exists and either a value is at hand or the column is NOT NULL
without a default (in which case `None` is bound on purpose, to
surface the constraint). -/
def addBind (dev : TableSchema) (binds : List (String × Option String))
    (col : String) (v : Option String) : List (String × Option String) :=
  if dev.names.contains col ∧
      (v.isSome ∨ (dev.nullableOf col == some "NO" ∧ (dev.defaultOf col).isNone)) then
    binds ++ [(col, v)]
  else binds

def bindOf (binds : List (String × Option String)) (c : String) : Option String :=
  (binds.find? (fun kv => kv.1 = c)).bind (fun kv => kv.2)

/-- Errors surfaced as `HTTPException` by the ingestion flows. -/
inductive ApiErr where
  | devicesMissingId
  | deviceUnresolvable
  | unsupportedSchema (cols : List String)
  | invalidGpxNoCoordinatePoints
deriving Repr, DecidableEq

/-- The `INSERT` bind list built by the `add(col, value)` calls
(lines 570-575), in source order. -/
def mkDeviceBinds (dev : TableSchema) (enums : List (String × List String))
    (uid : String) (esn : Option String) : List (String × Option String) :=
  addBind dev (addBind dev (addBind dev (addBind dev (addBind dev
    (addBind dev [] "user_id" (if dev.names.contains "user_id" then some uid else none))
    "type" (enumColVal dev enums "type" "spot" "spot"))
    "provider" (enumColVal dev enums "provider" "spot" "spot"))
    "external_id" (externalIdVal dev esn))
    "name" (nameVal dev esn))
    "status" (enumColVal dev enums "status" "active" "active")

/-- The created device row: bound columns get their bound values,
unmentioned columns stay NULL. -/
def mkDeviceRow (dev : TableSchema) (enums : List (String × List String))
    (uid : String) (esn : Option String) (devId : String) : DeviceRow :=
  { id := devId
    user_id := bindOf (mkDeviceBinds dev enums uid esn) "user_id"
    type := bindOf (mkDeviceBinds dev enums uid esn) "type"
    provider := bindOf (mkDeviceBinds dev enums uid esn) "provider"
    external_id := bindOf (mkDeviceBinds dev enums uid esn) "external_id"
    name := bindOf (mkDeviceBinds dev enums uid esn) "name"
    status := bindOf (mkDeviceBinds dev enums uid esn) "status" }

/-- `ensure_spot_device_for_user(db, user_id, esn)` (lines 483-579):
find or create a SPOT device, returning its id and the updated device
table. -/
def ensure_spot_device_for_user (dev : TableSchema) (enums : List (String × List String))
    (st : DevState) (uid : String) (esn : Option String) :
    Except ApiErr (String × DevState) :=
  if ¬ dev.names.contains "id" then .error .devicesMissingId
  else
    match lookupByProvider dev st uid (enumColVal dev enums "provider" "spot" "spot")
        (externalIdVal dev esn) with
    | some i => .ok (i, st)
    | none =>
      match lookupByUserName dev st uid (nameVal dev esn) with
      | some i => .ok (i, st)
      | none =>
        .ok (freshId st,
          ⟨st.rows ++ [mkDeviceRow dev enums uid esn (freshId st)], st.nextId + 1⟩)

/-! ### SPOT write planner (`insert_positions`) -/

/-- A bound parameter value in an insert row. -/
inductive BVal where
  | s (v : String)
  | r (v : Rat)
  | t (v : PyDatetime)
  | ti (v : Int)
  | rawJson (msg_type esn : Option String)
deriving Repr, DecidableEq

/-- One bound row: a Python dict of parameter name to value
(`None` = SQL NULL). -/
abbrev Row := List (String × Option BVal)

/-- `r.get(c)`: missing key and `None` value coincide. -/
def rowVal (r : Row) (c : String) : Option BVal :=
  (r.find? (fun kv => kv.1 = c)).bind (fun kv => kv.2)

def rowHasKey (r : Row) (c : String) : Bool :=
  (r.find? (fun kv => kv.1 = c)).isSome

/-- `r.setdefault(c, None)`. -/
def rowSetdefault (r : Row) (c : String) : Row :=
  if rowHasKey r c then r else r ++ [(c, none)]

/-- An argument of the `ST_MakePoint` call, as spelled in the SQL text. -/
inductive SqlArg where
  | param (name : String)
  | coalesce (name : String) (dflt : Rat)
deriving Repr, DecidableEq

/-- `ST_SetSRID(ST_MakePoint(...), srid)` with its argument list. -/
structure PointExpr where
  srid : Int
  args : List SqlArg
deriving Repr, DecidableEq

/-- The geometry literal both routers build (spot lines 270-276,
tracks lines 189-193):
`ST_SetSRID(ST_MakePoint(:lon, :lat[, COALESCE(:z, 0.0)]), srid)`. -/
def mkPointSql (dim : Int) (srid : Int) : PointExpr :=
  if dim ≥ 3 then ⟨srid, [.param "lon", .param "lat", .coalesce "z" 0]⟩
  else ⟨srid, [.param "lon", .param "lat"]⟩

/-- Database evaluation of one `ST_MakePoint` argument against a bound
row: `:name` takes the bound value (must be numeric for a coordinate),
`COALESCE(:name, d)` falls back to `d` on NULL. -/
def evalArg (r : Row) : SqlArg → Option Rat
  | .param n =>
    match rowVal r n with
    | some (.r q) => some q
    | _ => none
  | .coalesce n d =>
    match rowVal r n with
    | some (.r q) => some q
    | _ => some d

/-- The coordinate tuple the database computes for a bound row. -/
def evalPoint (e : PointExpr) (r : Row) : Option (List Rat) :=
  (e.args.mapM (evalArg r))

/-- One VALUES entry of the synthesized statement. -/
inductive SqlVal where
  | bind (col : String)
  | point (e : PointExpr)
deriving Repr, DecidableEq

/-- The parameterized bulk insert the planner hands to the store. -/
structure InsertStmt where
  table : String
  cols : List String
  values : List SqlVal
  rows : List Row
deriving Repr, DecidableEq

/-- The database environment the SPOT import flow sees. -/
structure SpotDb where
  live_positions : TableSchema
  devices : TableSchema
  enums : List (String × List String)
  geomQuery : Except QueryErr (Option (Option Int × Option Int))
  devState : DevState
deriving Repr

/-- Insertion step of an ascending sort. -/
def insertSorted (x : String) : List String → List String
  | [] => [x]
  | y :: ys => if x ≤ y then x :: y :: ys else y :: insertSorted x ys

/-- `sorted(lp_cols)` where `lp_cols = set(get_columns(...))`:
deduplicate, then sort ascending (insertion sort — the output order is
all that matters). -/
def sortedNames (names : List String) : List String :=
  names.dedup.foldr insertSorted []

/-- The ordered scalar column templates for `live_positions`
(lines 413-418). -/
def template_opts : List (List String) :=
  [["user_id", "ts", "lat", "lon"],
   ["user_id", "ts", "lat", "lng"],
   ["ts", "lat", "lon"],
   ["ts", "lat", "lng"]]

/-- First template whose full column set is contained in the live
columns (`next((tpl for tpl in template_opts if set(tpl).issubset(lp_cols)), None)`). -/
def chooseTemplate (opts : List (List String)) (names : List String) : Option (List String) :=
  opts.find? (fun tpl => tpl.all names.contains)

/-- `ts` / `user_id` assignments (lines 288-292). -/
def rowHeadBlock (lp : List String) (uid : String) (m : PosMsg) : Row :=
  (if lp.contains "ts" then [("ts", some (BVal.t m.ts))] else []) ++
  (if lp.contains "user_id" then [("user_id", some (BVal.s uid))] else [])

/-- Coordinate assignments (lines 294-307): with a geometry column the
raw `lat`/`lon`/`z` parameters feed `ST_MakePoint`; otherwise the
classic scalar variants that exist get values. -/
def rowCoordBlock (lp : List String) (m : PosMsg) : Row :=
  if lp.contains "geom" then
    [("lat", m.lat.map BVal.r), ("lon", m.lon.map BVal.r), ("z", m.z.map BVal.r)]
  else
    (if lp.contains "lat" then [("lat", m.lat.map BVal.r)] else []) ++
    (if lp.contains "lon" then [("lon", m.lon.map BVal.r)] else []) ++
    (if lp.contains "lng" then [("lng", m.lon.map BVal.r)] else []) ++
    (if lp.contains "ele" then [("ele", m.z.map BVal.r)] else [])

/-- Speed assignment (lines 309-313): a `speed_kph` column takes the
parsed value as-is; failing that, a `speed_mps` column takes it
divided by 3.6; an absent parsed speed binds nothing. -/
def rowSpeedBlock (lp : List String) (m : PosMsg) : Row :=
  if lp.contains "speed_kph" ∧ m.speed_kph.isSome then
    [("speed_kph", m.speed_kph.map BVal.r)]
  else if lp.contains "speed_mps" ∧ m.speed_kph.isSome then
    [("speed_mps", m.speed_kph.map (fun q => BVal.r (q / (18 / 5))))]
  else []

/-- Battery assignment (lines 315-332): numeric columns coerce the
raw string (unparsable text becomes NULL), textual columns keep it. -/
def rowBatteryBlock (lps : TableSchema) (m : PosMsg) : Row :=
  if lps.names.contains "battery" then
    let (bdt, budt) := lps.typesOf "battery"
    let numericB := bdt = "double precision" ∨ bdt = "real" ∨ bdt = "numeric" ∨
      budt = "float8" ∨ budt = "float4" ∨ budt = "numeric"
    if numericB then
      [("battery", (m.battery.bind (fun b => parseFloatStr (stripStr b))).map BVal.r)]
    else
      [("battery", m.battery.map BVal.s)]
  else []

/-- The per-message resolved device id (lines 336-353): lookup by
`(provider='spot', external_id=esn, user_id)` when the devices schema
supports it, falling back to the batch default when the column is
required. -/
def spotRowDeviceId (db : SpotDb) (uid : String) (defaultDev : Option String)
    (deviceRequired : Bool) (m : PosMsg) : Option String :=
  let dv := db.devices.names
  let looked : Option String :=
    if dv.contains "provider" ∧ dv.contains "external_id" ∧ dv.contains "id" ∧
        truthyS m.esn then
      (db.devState.rows.find? (fun r =>
        r.provider == some "spot" ∧ r.external_id == m.esn ∧
        r.user_id == some uid)).map (fun r => r.id)
    else none
  if deviceRequired then (looked <|> defaultDev) else looked

/-- Device assignment (lines 334-356). -/
def rowDeviceBlock (db : SpotDb) (uid : String) (defaultDev : Option String)
    (deviceRequired : Bool) (m : PosMsg) : Row :=
  if db.live_positions.names.contains "device_id" then
    match spotRowDeviceId db uid defaultDev deviceRequired m with
    | some i => [("device_id", some (.s i))]
    | none => []
  else []

/-- Raw-payload capture (lines 358-359). -/
def rowRawBlock (lp : List String) (m : PosMsg) : Row :=
  if lp.contains "raw" then [("raw", some (BVal.rawJson m.msg_type m.esn))] else []

/-- Per-message bound-row construction of `insert_positions`
(lines 286-361), after the default device (if any) has been
resolved: the dict entries in source order. -/
def buildSpotRow (db : SpotDb) (uid : String) (defaultDev : Option String)
    (deviceRequired : Bool) (m : PosMsg) : Row :=
  rowHeadBlock db.live_positions.names uid m ++
  rowCoordBlock db.live_positions.names m ++
  rowSpeedBlock db.live_positions.names m ++
  rowBatteryBlock db.live_positions m ++
  rowDeviceBlock db uid defaultDev deviceRequired m ++
  rowRawBlock db.live_positions.names m

/-- `device_id` is NOT NULL without a default on `live_positions`
(lines 262-267). -/
def spotDeviceRequired (db : SpotDb) : Bool :=
  db.live_positions.names.contains "device_id" ∧
  db.live_positions.nullableOf "device_id" == some "NO" ∧
  ¬ truthyS (db.live_positions.defaultOf "device_id")

/-- The geometry-branch insert columns (lines 377-384): present
optional columns in fixed order, `geom` always last. -/
def spotGeomCols (lp : List String) (includeDevice : Bool) : List String :=
  (if lp.contains "user_id" then ["user_id"] else []) ++
  (if lp.contains "ts" then ["ts"] else []) ++
  (if includeDevice then ["device_id"] else []) ++
  (if lp.contains "battery" then ["battery"] else []) ++
  (if lp.contains "speed_kph" then ["speed_kph"] else []) ++
  (if lp.contains "speed_mps" then ["speed_mps"] else []) ++ ["geom"]

/-- Geometry-branch row post-processing (lines 386-393): fill the
missing insert columns with NULL, then drop every row lacking a
required coordinate. -/
def spotGeomRows (cols : List String) (rows : List Row) : List Row :=
  (rows.map (fun r =>
    (cols.filter (fun c => c ≠ "geom")).foldl rowSetdefault r)).filter
    (fun r => ¬ (rowVal r "lat" == none ∨ rowVal r "lon" == none))

/-- Geometry-branch statement build and execution (lines 376-409):
report 0 without executing when no row remains. -/
def spotGeomExec (db : SpotDb) (lp : List String) (includeDevice : Bool)
    (rows : List Row) : Except ApiErr (Nat × Option InsertStmt) :=
  let gi := geomInfoVal db.geomQuery
  let cols := spotGeomCols lp includeDevice
  let rows := spotGeomRows cols rows
  if rows.isEmpty then .ok (0, none)
  else .ok (rows.length, some
    { table := "live_positions"
      cols := cols
      values := cols.map (fun c =>
        if c = "geom" then .point (mkPointSql gi.1 gi.2) else .bind c)
      rows := rows })

/-- Scalar-branch statement build and execution (lines 411-436):
probe the ordered templates, fail naming the sorted column set when
none is contained in the live columns. -/
def spotClassicExec (lp : List String) (rows : List Row) :
    Except ApiErr (Nat × Option InsertStmt) :=
  match chooseTemplate template_opts lp with
  | none => .error (.unsupportedSchema (sortedNames lp))
  | some template =>
    let rows := rows.map (fun r => template.foldl rowSetdefault r)
    .ok (rows.length, some
      { table := "live_positions"
        cols := template
        values := template.map .bind
        rows := rows })

/-- `insert_positions(db, user_id, msgs)` (lines 244-439).  Returns
the count reported to the caller and the statement that was executed,
`none` when the function returned `0` before building one.  Statement
execution itself is taken as succeeding; every claim under study is
about the planning, not the store's reaction. -/
def insert_positions (db : SpotDb) (uid : String) (msgs : List PosMsg) :
    Except ApiErr (Nat × Option InsertStmt) := do
  let lp := db.live_positions.names
  let deviceRequired := spotDeviceRequired db
  let (defaultDev, db) ←
    if deviceRequired then do
      let firstEsn := ((msgs.find? (fun m => truthyS m.esn)).map (fun m => m.esn)).getD none
      let (i, st') ← ensure_spot_device_for_user db.devices db.enums db.devState uid firstEsn
      pure (some i, { db with devState := st' })
    else pure (none, db)
  let rows : List Row := msgs.map (buildSpotRow db uid defaultDev deviceRequired)
  if rows.isEmpty then pure (0, none)
  else
    let includeDevice := lp.contains "device_id" ∧
      rows.all (fun r => (rowVal r "device_id").isSome)
    if deviceRequired ∧ ¬ includeDevice then .error .deviceUnresolvable
    else if lp.contains "geom" then spotGeomExec db lp includeDevice rows
    else spotClassicExec lp rows

/-! ### Track upload (`upload_gpx` in `app/routers/tracks.py`) -/

/-- A flattened GPX point.  Timestamps are modelled as epoch seconds
UTC; `to_utc` (naive-as-UTC reinterpretation) is the identity in this
absolute-instant model. -/
structure GpxPoint where
  latitude : Option Rat
  longitude : Option Rat
  elevation : Option Rat
  time : Option Int
deriving Repr, DecidableEq

/-- Time window and base timestamp (lines 133-143): with timestamps,
`(min, max, min)`; without, `(now, now + max(n-1, 0), now)`.  A
`datetime` is always truthy, so `[p.time for p in pts if p.time]`
is exactly `filterMap`. -/
def timeWindow (pts : List GpxPoint) (now : Int) : Int × Int × Int :=
  let times := pts.filterMap (fun p => p.time)
  match times with
  | [] => (now, now + ((pts.length - 1 : Nat) : Int), now)
  | t :: ts => (ts.foldl min t, ts.foldl max t, ts.foldl min t)

/-- The ordered classic `track_points` templates (lines 248-252). -/
def classic_templates : List (List String) :=
  [["track_id", "seq", "lat", "lon", "ele", "t"],
   ["track_id", "seq", "lat", "lon", "t"],
   ["track_id", "seq", "lat", "lng", "ele", "t"]]

/-- The database environment the upload flow sees. -/
structure TracksDb where
  tracks : TableSchema
  track_points : TableSchema
  geomQuery : Except QueryErr (Option (Option Int × Option Int))
deriving Repr

/-- Geometry-branch row for point `i` (lines 213-232): points missing
a coordinate are skipped (`none`); the timestamp is the point's own or
`base_ts + i` seconds. -/
def buildTrackPointRowGeom (trackId : String) (hasElev includeId : Bool)
    (baseTs : Int) (i : Nat) (p : GpxPoint) : Option Row :=
  match p.latitude, p.longitude with
  | some la, some lo =>
    let z := p.elevation
    let tsv : Int := p.time.getD (baseTs + i)
    some (([("track_id", some (.s trackId)), ("ts", some (.ti tsv)),
            ("lat", some (.r la)), ("lon", some (.r lo)), ("z", z.map .r)] : Row) ++
          (if hasElev then [("elev_m", z.map BVal.r)] else []) ++
          (if includeId then [("id", some (BVal.s ("ptid-" ++ toString i)))] else []))
  | _, _ => none

/-- Classic-branch row for point `i` (lines 261-274): nothing is
skipped; the template decides which fields are bound. -/
def buildTrackPointRowClassic (trackId : String) (tpl : List String)
    (baseTs : Int) (i : Nat) (p : GpxPoint) : Row :=
  ([("track_id", some (.s trackId)), ("seq", some (.r (i : Rat)))] : Row) ++
  (if tpl.contains "lat" then [("lat", p.latitude.map BVal.r)] else []) ++
  (if tpl.contains "lon" then [("lon", p.longitude.map BVal.r)] else []) ++
  (if tpl.contains "lng" then [("lng", p.longitude.map BVal.r)] else []) ++
  (if tpl.contains "ele" then [("ele", p.elevation.map BVal.r)] else []) ++
  (if tpl.contains "t" then [("t", some (BVal.ti (p.time.getD (baseTs + i))))] else [])

/-- The `track_points` write planning of `upload_gpx`
(lines 174-287): the geometry branch applies when
`{track_id, geom, ts}` is contained in the live columns, else the
classic templates are probed in order. -/
def plan_track_points (db : TracksDb) (trackId : String) (pts : List GpxPoint)
    (baseTs : Int) : Except ApiErr InsertStmt :=
  let tp := db.track_points.names
  if tp.contains "track_id" ∧ tp.contains "geom" ∧ tp.contains "ts" then
    let hasElev := tp.contains "elev_m"
    let includeId :=
      if tp.contains "id" then
        let (dt, udt) := db.track_points.typesOf "id"
        dt = "uuid" ∨ udt = "uuid"
      else false
    let gi := geomInfoVal db.geomQuery
    let dim := gi.1
    let srid := gi.2
    let cols := (if includeId then ["id"] else []) ++ ["track_id", "ts"] ++
      (if hasElev then ["elev_m"] else []) ++ ["geom"]
    let rows := (pts.enum.filterMap (fun ip =>
      buildTrackPointRowGeom trackId hasElev includeId baseTs ip.1 ip.2))
    if rows.isEmpty then .error .invalidGpxNoCoordinatePoints
    else .ok
      { table := "track_points"
        cols := cols
        values := cols.map (fun c => if c = "geom" then .point (mkPointSql dim srid) else .bind c)
        rows := rows }
  else
    match chooseTemplate classic_templates tp with
    | none => .error (.unsupportedSchema (sortedNames tp))
    | some tpl => .ok
      { table := "track_points"
        cols := tpl
        values := tpl.map .bind
        rows := pts.enum.map (fun ip => buildTrackPointRowClassic trackId tpl baseTs ip.1 ip.2) }

/-! ### Feed fetch (`fetch_spot_messages`) -/

/-- Outcome of an HTTP GET at the transport level. -/
inductive NetR (α : Type) where
  | ok (r : α)
  | netFail

/-- The `.json` endpoint's response: status, `content-type` header and
the result of `rj.json()` (`.error` = unparsable JSON body). -/
structure JsonResp where
  status : Nat
  contentType : String
  body : Except PyErr J

/-- The `.xml` endpoint's response: status and the `ET.fromstring`
result (`none` = malformed XML, which raises). -/
structure XmlResp where
  status : Nat
  body : Option (List XmlMsg)

structure FetchEnv where
  jsonReq : NetR JsonResp
  xmlReq : NetR XmlResp

inductive FetchErr where
  | xmlNetwork
  | xmlStatus (code : Nat)
  | xmlParse
deriving Repr, DecidableEq

/-- Result of the fetch plus how many requests went to the XML
endpoint. -/
structure FetchResult where
  result : Except FetchErr (List PosMsg)
  xmlRequests : Nat

def isPrefixB : List Char → List Char → Bool
  | [], _ => true
  | _ :: _, [] => false
  | a :: as, b :: bs => a = b ∧ isPrefixB as bs

def containsSubB : List Char → List Char → Bool
  | [], pat => isPrefixB pat []
  | c :: cs, pat => isPrefixB pat (c :: cs) ∨ containsSubB cs pat

/-- `headers.get("content-type", "").lower().find("json") >= 0`. -/
def ctHasJson (ct : String) : Bool :=
  containsSubB (ct.toList.map Char.toLower) "json".toList

/-- The JSON leg of the fetch (lines 206-215): `some items` when the
response is accepted (status 200, json content type, body parses and
normalizes to a nonempty list), `none` for every other outcome, all of
which fall through to the XML leg. -/
def jsonAttempt (env : FetchEnv) : Option (List PosMsg) :=
  match env.jsonReq with
  | .netFail => none
  | .ok rj =>
    if rj.status = 200 ∧ ctHasJson rj.contentType then
      match rj.body with
      | .error _ => none
      | .ok data =>
        match parse_spot_json data with
        | .error _ => none
        | .ok items => if items.isEmpty then none else some items
    else none

/-- `fetch_spot_messages` (lines 196-220): try JSON first; on any
unaccepted JSON outcome fall back to one XML request, whose transport
errors, non-2xx statuses (`raise_for_status`) and parse failures fail
the whole fetch. -/
def fetch_spot_messages (env : FetchEnv) : FetchResult :=
  match jsonAttempt env with
  | some items => { result := .ok items, xmlRequests := 0 }
  | none =>
    match env.xmlReq with
    | .netFail => { result := .error .xmlNetwork, xmlRequests := 1 }
    | .ok rx =>
      if 200 ≤ rx.status ∧ rx.status ≤ 299 then
        match rx.body with
        | none => { result := .error .xmlParse, xmlRequests := 1 }
        | some doc => { result := .ok (parse_spot_xml doc), xmlRequests := 1 }
      else { result := .error (.xmlStatus rx.status), xmlRequests := 1 }

/-! ### Denotation and specification-side helpers -/

/-- Days since 1970-01-01 of a proleptic-Gregorian civil date (the
standard days-from-civil conversion). -/
def daysFromCivil (y m d : Int) : Int :=
  let y' := y - (if m ≤ 2 then 1 else 0)
  let era := (if 0 ≤ y' then y' else y' - 399) / 400
  let yoe := y' - era * 400
  let doy := (153 * (m + (if 2 < m then -3 else 9)) + 2) / 5 + d - 1
  let doe := yoe * 365 + yoe / 4 - yoe / 100 + doy
  era * 146097 + doe - 719468

/-- The epoch second a parsed datetime denotes (sub-second part
dropped). -/
def dtToEpoch (d : DT) : Int :=
  daysFromCivil d.year d.month d.day * 86400 +
    (d.hour : Int) * 3600 + (d.minute : Int) * 60 + (d.second : Int) - d.tzSec

/-- The canonical SPOT JSON payload shape
`{"response": {"feedMessageResponse": {"messages": {"message": [...]}}}}`. -/
def wrapPayload (items : List J) : J :=
  .obj [("response", .obj [("feedMessageResponse",
    .obj [("messages", .obj [("message", .arr items)])])])]

/-- Latitude extraction of the JSON feed parser (line 140), as the
claim's notion of "carrying a latitude". -/
def jsonLatOf (m : J) : Option Rat :=
  safeFloat (pyOr ((mget m "latitude").toOption.bind id) ((mget m "lat").toOption.bind id))

/-- Longitude extraction (line 141). -/
def jsonLonOf (m : J) : Option Rat :=
  safeFloat (pyOr ((mget m "longitude").toOption.bind id)
    (pyOr ((mget m "lng").toOption.bind id) ((mget m "lon").toOption.bind id)))

/-- A message both of whose coordinates extract to numbers. -/
def msgHasCoords (m : J) : Bool := (jsonLatOf m).isSome ∧ (jsonLonOf m).isSome

/-- `tpl` is the first entry of `opts` whose full column set is
contained in `names` (set-subset, as `set(tpl).issubset(cols)`).  This
is the specification's description of template selection, stated
independently of `List.find?`. -/
def FirstMatchingTemplate (opts : List (List String)) (names : List String)
    (tpl : List String) : Prop :=
  (∃ pre post, opts = pre ++ tpl :: post ∧
    ∀ t ∈ pre, ¬ (∀ c ∈ t, c ∈ names)) ∧ ∀ c ∈ tpl, c ∈ names

/-- The JSON response was accepted by the fetch (spec: status 200,
json content type, nonempty normalization). -/
def JsonAccepted (env : FetchEnv) : Prop :=
  ∃ rj data items, env.jsonReq = NetR.ok rj ∧ rj.status = 200 ∧
    ctHasJson rj.contentType = true ∧ rj.body = .ok data ∧
    parse_spot_json data = .ok items ∧ items ≠ []

/-! ### Generic row and list lemmas -/

theorem rowVal_append (r1 r2 : Row) (c : String) :
    rowVal (r1 ++ r2) c = if rowHasKey r1 c then rowVal r1 c else rowVal r2 c := by
  simp only [rowVal, rowHasKey, List.find?_append]
  cases h : r1.find? (fun kv => kv.1 = c) <;> simp [Option.or]

theorem rowVal_nil (c : String) : rowVal [] c = none := rfl

theorem rowVal_cons_eq (v : Option BVal) (r : Row) (c : String) :
    rowVal ((c, v) :: r) c = v := by
  simp [rowVal, List.find?_cons_of_pos]

theorem rowVal_cons_ne {k c : String} (h : k ≠ c) (v : Option BVal) (r : Row) :
    rowVal ((k, v) :: r) c = rowVal r c := by
  simp only [rowVal]
  rw [List.find?_cons_of_neg]
  simpa using h

theorem rowHasKey_cons_ne {k c : String} (h : k ≠ c) (v : Option BVal) (r : Row) :
    rowHasKey ((k, v) :: r) c = rowHasKey r c := by
  simp only [rowHasKey]
  rw [List.find?_cons_of_neg]
  simpa using h

theorem rowHasKey_nil (c : String) : rowHasKey [] c = false := rfl

/-- `find?` over an appended singleton. -/
theorem find?_append_singleton {α : Type} (l : List α) (a : α) (p : α → Bool) :
    (l ++ [a]).find? p = ((l.find? p).or (if p a then some a else none)) := by
  rw [List.find?_append]
  congr 1
  by_cases h : p a <;> simp [List.find?, h]

/-- Length of `filterMap` counts the `isSome` hits. -/
theorem length_filterMap_eq_countP {α β : Type} (f : α → Option β) (l : List α) :
    (l.filterMap f).length = l.countP (fun x => (f x).isSome) := by
  induction l with
  | nil => rfl
  | cons x xs ih =>
    rw [List.filterMap_cons, List.countP_cons]
    cases h : f x <;> simp [h, ih]

/-- `mapExcept` succeeds pointwise. -/
theorem mapExcept_ok {α β ε : Type} (f : α → Except ε β) (g : α → β) (l : List α)
    (h : ∀ x ∈ l, f x = .ok (g x)) : mapExcept f l = .ok (l.map g) := by
  induction l with
  | nil => rfl
  | cons x xs ih =>
    have hx : f x = .ok (g x) := h x (by simp)
    have hrest : mapExcept f xs = .ok (xs.map g) := ih (fun y hy => h y (by simp [hy]))
    simp only [mapExcept, hx, hrest]
    rfl

/-- Decomposition of a successful `find?`: the found element is the
first satisfying one. -/
theorem find?_eq_some_decomp {α : Type} {p : α → Bool} :
    ∀ {l : List α} {x : α}, l.find? p = some x →
      ∃ pre post, l = pre ++ x :: post ∧ p x = true ∧ ∀ y ∈ pre, p y = false := by
  intro l
  induction l with
  | nil => intro x h; simp [List.find?] at h
  | cons a as ih =>
    intro x h
    by_cases ha : p a
    · rw [List.find?_cons_of_pos _ ha] at h
      cases h
      exact ⟨[], as, by simp, ha, by simp⟩
    · rw [List.find?_cons_of_neg _ ha] at h
      obtain ⟨pre, post, hl, hx, hpre⟩ := ih h
      refine ⟨a :: pre, post, by simp [hl], hx, ?_⟩
      intro y hy
      rcases List.mem_cons.mp hy with hy | hy
      · subst hy; simpa using ha
      · exact hpre y hy

/-! ### C7 — geometry-info lookup defaults -/

/-- C7 counterexample: a genuine query failure (e.g. lost
connectivity while reading `geometry_columns`) is *not* propagated to
the caller; `get_geom_info` silently converts it into the default
`(2, 4326)` because its `try` block catches every exception. -/
theorem get_geom_info_swallows_query_failure :
    get_geom_info (.error .dbFailure) = .ok (2, 4326) ∧
    get_geom_info (.error .dbFailure) ≠ .error .dbFailure := by
  refine ⟨rfl, ?_⟩
  intro h
  exact Except.noConfusion h

/-- C7 (amended): the geometry-info lookup returns the default
`(2, 4326)` both when the geometry metadata row is absent and when the
underlying query fails; it never throws in either case (every outcome
is a plain value). -/
theorem get_geom_info_defaults :
    (∀ e, get_geom_info (.error e) = .ok (2, 4326)) ∧
    get_geom_info (.ok none) = .ok (2, 4326) ∧
    (∀ q, ∃ p, get_geom_info q = .ok p) := by
  refine ⟨fun e => ?_, rfl, fun q => ⟨geomInfoVal q, ?_⟩⟩
  · cases e; rfl
  · cases q with
    | error e => rfl
    | ok o => cases o with
      | none => rfl
      | some p => cases p; rfl

/-! ### C5 — timestamp resolution order -/

/-- C5 counterexample, two concrete inputs.
(1) `unixTime = 0` is a valid integer epoch, but Python's `if unix:`
treats the number `0` as falsy, so the co-present `dateTime` wins:
the resolved timestamp is 2024-07-01T12:34:56Z, not epoch 0.
(2) With no `unixTime` and `dateTime = "2024-07-01T12:34+00:00"`, both
fixed `strptime` layouts fail (no seconds field), yet the result is
*not* the ingestion wall clock: a third, `fromisoformat` attempt
(guarded by the `"+00:00"` suffix) parses it. -/
theorem parse_dt_counterexample :
    parse_dt (some (.num 0)) (some (.str "2024-07-01T12:34:56+0000")) =
      .fromStr ⟨2024, 7, 1, 12, 34, 56, 0, 0⟩ ∧
    pyIntOfJ (.num 0) = some 0 ∧
    dtToEpoch ⟨2024, 7, 1, 12, 34, 56, 0, 0⟩ ≠ 0 ∧
    strptimeFmt1 "2024-07-01T12:34+00:00" = none ∧
    strptimeFmt2 "2024-07-01T12:34+00:00" = none ∧
    parse_dt none (some (.str "2024-07-01T12:34+00:00")) =
      .fromStr ⟨2024, 7, 1, 12, 34, 0, 0, 0⟩ ∧
    parse_dt none (some (.str "2024-07-01T12:34+00:00")) ≠ .nowFallback := by
  refine ⟨rfl, rfl, by decide, rfl, rfl, rfl, ?_⟩
  intro h
  rw [show parse_dt none (some (.str "2024-07-01T12:34+00:00")) =
    .fromStr ⟨2024, 7, 1, 12, 34, 0, 0, 0⟩ from rfl] at h
  exact PyDatetime.noConfusion h

/-- C5 (amended): resolution order of `_parse_dt`.  A *truthy*
`unixTime` that parses as an in-range integer resolves to exactly that
epoch second in UTC, regardless of any co-present `dateTime`.  When
the epoch path yields nothing, the two fixed layouts are attempted in
order on a string `dateTime`; if both fail, one additional
`fromisoformat` attempt is made for strings ending in `"+00:00"`; only
then does the timestamp fall back to ingestion wall-clock time (also
for absent/falsy/non-string `dateTime`). -/
theorem parse_dt_resolution_order :
    (∀ (u : J) (d : Option J) (n : Int), otruthy (some u) = true →
      pyIntOfJ u = some n → fromtimestampOk n = true →
      parse_dt (some u) d = .fromUnix n) ∧
    (∀ (u : Option J) (s : String) (dt : DT), unixResolution u = none →
      strptimeFmt1 s = some dt → parse_dt u (some (.str s)) = .fromStr dt) ∧
    (∀ (u : Option J) (s : String) (dt : DT), unixResolution u = none →
      strptimeFmt1 s = none → strptimeFmt2 s = some dt →
      parse_dt u (some (.str s)) = .fromStr dt) ∧
    (∀ (u : Option J) (s : String) (dt : DT), unixResolution u = none →
      strptimeFmt1 s = none → strptimeFmt2 s = none →
      pyEndsWith s "+00:00" = true → fromisoformatPy s = some dt →
      parse_dt u (some (.str s)) = .fromStr dt) ∧
    (∀ (u : Option J) (s : String), unixResolution u = none →
      strptimeFmt1 s = none → strptimeFmt2 s = none →
      (pyEndsWith s "+00:00" = false ∨ fromisoformatPy s = none) →
      parse_dt u (some (.str s)) = .nowFallback) ∧
    (∀ (u d : Option J), unixResolution u = none → otruthy d = false →
      parse_dt u d = .nowFallback) := by
  have hstr : ∀ (s : String) (dt : DT), strptimeFmt1 s = some dt → s ≠ "" := by
    intro s dt h hs
    subst hs
    exact Option.noConfusion h
  have hstr2 : ∀ (s : String) (dt : DT), strptimeFmt2 s = some dt → s ≠ "" := by
    intro s dt h hs
    subst hs
    exact Option.noConfusion h
  refine ⟨?_, ?_, ?_, ?_, ?_, ?_⟩
  · intro u d n hu hn hok
    simp [parse_dt, unixResolution, hu, hn, hok]
  · intro u s dt hu h1
    have hne : s ≠ "" := hstr s dt h1
    simp [parse_dt, hu, otruthy, J.truthy, hne, h1]
  · intro u s dt hu h1 h2
    have hne : s ≠ "" := hstr2 s dt h2
    simp [parse_dt, hu, otruthy, J.truthy, hne, h1, h2]
  · intro u s dt hu h1 h2 hend hiso
    have hne : s ≠ "" := by
      intro hs
      subst hs
      exact Option.noConfusion hiso
    simp [parse_dt, hu, otruthy, J.truthy, hne, h1, h2, hend, hiso]
  · intro u s hu h1 h2 hrest
    by_cases hne : s = ""
    · subst hne
      simp [parse_dt, hu, otruthy, J.truthy]
    · rcases hrest with hend | hiso
      · simp [parse_dt, hu, otruthy, J.truthy, hne, h1, h2, hend]
      · simp [parse_dt, hu, otruthy, J.truthy, hne, h1, h2, hiso]
  · intro u d hu hd
    cases d with
    | none => simp [parse_dt, hu, hd]
    | some v =>
      cases v <;> simp_all [parse_dt, otruthy, J.truthy]

/-- Witness for the amended C5 theorem: `unixTime = "1719836096"`
resolves to exactly that epoch second even with a conflicting
`dateTime`; and a `dateTime` matching the first layout is used when
`unixTime` is absent. -/
theorem parse_dt_resolution_order_witness :
    parse_dt (some (.str "1719836096")) (some (.str "1999-01-01T00:00:00+0000")) =
      .fromUnix 1719836096 ∧
    parse_dt none (some (.str "2024-07-01T12:34:56+0000")) =
      .fromStr ⟨2024, 7, 1, 12, 34, 56, 0, 0⟩ := by
  constructor
  · exact parse_dt_resolution_order.1 (.str "1719836096")
      (some (.str "1999-01-01T00:00:00+0000")) 1719836096 rfl rfl rfl
  · exact parse_dt_resolution_order.2.1 none "2024-07-01T12:34:56+0000"
      ⟨2024, 7, 1, 12, 34, 56, 0, 0⟩ rfl rfl

/-! ### C6 — JSON-then-XML fetch fallback -/

/-- A fetch environment where the JSON endpoint answers 500 and the
XML endpoint answers 200 with a body that is not well-formed XML. -/
def fetchEnvXmlGarbage : FetchEnv :=
  { jsonReq := .ok ⟨500, "application/json", .ok (.obj [])⟩
    xmlReq := .ok ⟨200, none⟩ }

/-- C6 counterexample: the XML request itself succeeds (transport OK,
status 200), yet the whole fetch fails, because `ET.fromstring` raises
on the malformed body — so "fails only if the XML request also errors"
is not what the code does. -/
theorem fetch_fails_on_xml_parse_error :
    (fetch_spot_messages fetchEnvXmlGarbage).result = .error .xmlParse ∧
    (fetch_spot_messages fetchEnvXmlGarbage).xmlRequests = 1 ∧
    fetchEnvXmlGarbage.xmlReq = NetR.ok ⟨200, none⟩ := by
  exact ⟨rfl, rfl, rfl⟩

/-- C6 (amended): the JSON endpoint is tried first and accepted only
on a 200 response with a json content type whose body parses and
normalizes to at least one record; on any other JSON outcome exactly
one request is issued to the XML endpoint (none on acceptance); and
the whole fetch fails only if that XML request errors at transport
level, returns a non-2xx status, or its 200 body fails to parse as
XML. -/
theorem fetch_contract :
    (∀ (env : FetchEnv) rj data items, env.jsonReq = NetR.ok rj →
      rj.status = 200 → ctHasJson rj.contentType = true →
      rj.body = .ok data → parse_spot_json data = .ok items → items ≠ [] →
      fetch_spot_messages env = ⟨.ok items, 0⟩) ∧
    (∀ env : FetchEnv, ¬ JsonAccepted env →
      (fetch_spot_messages env).xmlRequests = 1) ∧
    (∀ env : FetchEnv, JsonAccepted env →
      (fetch_spot_messages env).xmlRequests = 0) ∧
    (∀ (env : FetchEnv) (e : FetchErr), (fetch_spot_messages env).result = .error e →
      env.xmlReq = NetR.netFail ∨
        ∃ rx, env.xmlReq = NetR.ok rx ∧
          (rx.status < 200 ∨ 299 < rx.status ∨ rx.body = none)) := by
  have hAttempt : ∀ env : FetchEnv, jsonAttempt env = none ∨
      ∃ items, jsonAttempt env = some items ∧ JsonAccepted env := by
    intro env
    cases hreq : env.jsonReq with
    | netFail => left; simp [jsonAttempt, hreq]
    | ok rj =>
      by_cases hcond : rj.status = 200 ∧ ctHasJson rj.contentType
      · cases hbody : rj.body with
        | error e => left; simp [jsonAttempt, hreq, hcond, hbody]
        | ok data =>
          cases hparse : parse_spot_json data with
          | error e => left; simp [jsonAttempt, hreq, hcond, hbody, hparse]
          | ok items =>
            by_cases hemp : items.isEmpty
            · left; simp [jsonAttempt, hreq, hcond, hbody, hparse, hemp]
            · right
              refine ⟨items, by simp [jsonAttempt, hreq, hcond, hbody, hparse, hemp], ?_⟩
              exact ⟨rj, data, items, hreq, hcond.1, hcond.2, hbody, hparse,
                by simpa [List.isEmpty_iff] using hemp⟩
      · left; simp [jsonAttempt, hreq, hcond]
  have hAccept : ∀ env : FetchEnv, JsonAccepted env → ∃ items, jsonAttempt env = some items := by
    intro env h
    obtain ⟨rj, data, items, hreq, hst, hct, hbody, hparse, hne⟩ := h
    refine ⟨items, ?_⟩
    simp [jsonAttempt, hreq, hst, hct, hbody, hparse, List.isEmpty_iff, hne]
  refine ⟨?_, ?_, ?_, ?_⟩
  · intro env rj data items hreq hst hct hbody hparse hne
    have : jsonAttempt env = some items := by
      simp [jsonAttempt, hreq, hst, hct, hbody, hparse, List.isEmpty_iff, hne]
    simp [fetch_spot_messages, this]
  · intro env hna
    rcases hAttempt env with h | ⟨items, _, hacc⟩
    · cases hx : env.xmlReq with
      | netFail => simp [fetch_spot_messages, h, hx]
      | ok rx =>
        by_cases hst : 200 ≤ rx.status ∧ rx.status ≤ 299
        · cases hb : rx.body <;> simp [fetch_spot_messages, h, hx, hst, hb]
        · simp [fetch_spot_messages, h, hx, hst]
    · exact absurd hacc hna
  · intro env hacc
    obtain ⟨items, h⟩ := hAccept env hacc
    simp [fetch_spot_messages, h]
  · intro env e herr
    rcases hAttempt env with h | ⟨items, h, _⟩
    · cases hx : env.xmlReq with
      | netFail => left; rfl
      | ok rx =>
        right
        refine ⟨rx, rfl, ?_⟩
        by_cases hst : 200 ≤ rx.status ∧ rx.status ≤ 299
        · cases hb : rx.body with
          | none => exact Or.inr (Or.inr rfl)
          | some doc =>
            exfalso
            rw [show fetch_spot_messages env =
              { result := .ok (parse_spot_xml doc), xmlRequests := 1 } from by
                simp [fetch_spot_messages, h, hx, hst, hb]] at herr
            exact Except.noConfusion herr
        · rcases Nat.lt_or_ge rx.status 200 with hlt | hge
          · exact Or.inl hlt
          · refine Or.inr (Or.inl ?_)
            omega
    · rw [show fetch_spot_messages env = { result := .ok items, xmlRequests := 0 } from by
        simp [fetch_spot_messages, h]] at herr
      exact Except.noConfusion herr

/-- Witness for the fetch contract: a concrete accepted JSON response
with one message is returned without touching the XML endpoint; a
concrete rejected one (status 500) issues exactly one XML request. -/
theorem fetch_contract_witness :
    fetch_spot_messages
      { jsonReq := .ok ⟨200, "application/json",
          .ok (wrapPayload [.obj [("latitude", .num 5), ("longitude", .num 6),
            ("unixTime", .num 100)]])⟩
        xmlReq := .ok ⟨200, some []⟩ } =
      ⟨.ok [⟨some 5, some 6, none, .fromUnix 100, none, none, none, none, none⟩], 0⟩ ∧
    (fetch_spot_messages fetchEnvXmlGarbage).xmlRequests = 1 := by
  constructor
  · exact fetch_contract.1 _ ⟨200, "application/json", _⟩ _
      [⟨some 5, some 6, none, .fromUnix 100, none, none, none, none, none⟩]
      rfl rfl rfl rfl rfl (by simp)
  · refine fetch_contract.2.1 fetchEnvXmlGarbage ?_
    intro h
    obtain ⟨rj, data, items, hreq, hst, _, _, _, _⟩ := h
    rw [show fetchEnvXmlGarbage.jsonReq = NetR.ok ⟨500, "application/json", .ok (.obj [])⟩
      from rfl] at hreq
    cases hreq
    exact absurd hst (by decide)

/-! ### Row key-set lemmas for the SPOT planner blocks -/

theorem rowHasKey_append (r1 r2 : Row) (c : String) :
    rowHasKey (r1 ++ r2) c = (rowHasKey r1 c || rowHasKey r2 c) := by
  simp only [rowHasKey, List.find?_append]
  cases h : r1.find? (fun kv => kv.1 = c) <;> simp [Option.or]

theorem rowVal_eq_none_of_not_hasKey {r : Row} {c : String}
    (h : rowHasKey r c = false) : rowVal r c = none := by
  cases hf : r.find? (fun kv => kv.1 = c) with
  | none => simp [rowVal, hf]
  | some kv => simp [rowHasKey, hf] at h

/-- A row built only from keys in `ks` has no binding for any other
column. -/
theorem rowHasKey_eq_false_of_keys {r : Row} {ks : List String}
    (hr : ∀ kv ∈ r, kv.1 ∈ ks) {c : String} (hc : c ∉ ks) :
    rowHasKey r c = false := by
  have hf : r.find? (fun kv => kv.1 = c) = none := by
    rw [List.find?_eq_none]
    intro kv hkv
    simp only [decide_eq_true_eq]
    intro he
    exact hc (he ▸ hr kv hkv)
  simp [rowHasKey, hf]

theorem mem_ite_list {α : Type} {c : Prop} [Decidable c] {l1 l2 : List α} {x : α}
    (h : x ∈ (if c then l1 else l2)) : x ∈ l1 ∨ x ∈ l2 := by
  split at h
  · exact .inl h
  · exact .inr h

theorem rowHeadBlock_keys (lp : List String) (uid : String) (m : PosMsg) :
    ∀ kv ∈ rowHeadBlock lp uid m, kv.1 ∈ ["ts", "user_id"] := by
  intro kv hkv
  unfold rowHeadBlock at hkv
  repeat' split at hkv
  all_goals simp only [List.mem_append, List.mem_cons, List.mem_singleton,
    List.not_mem_nil, or_false, false_or, or_assoc] at hkv
  all_goals first
    | (rcases hkv with rfl | rfl <;> simp)
    | (rcases hkv with rfl <;> simp)

theorem rowCoordBlock_keys (lp : List String) (m : PosMsg) :
    ∀ kv ∈ rowCoordBlock lp m, kv.1 ∈ ["lat", "lon", "z", "lng", "ele"] := by
  intro kv hkv
  unfold rowCoordBlock at hkv
  repeat' split at hkv
  all_goals simp only [List.mem_append, List.mem_cons, List.mem_singleton,
    List.not_mem_nil, or_false, false_or, or_assoc] at hkv
  all_goals first
    | (rcases hkv with rfl | rfl | rfl | rfl <;> simp)
    | (rcases hkv with rfl | rfl | rfl <;> simp)
    | (rcases hkv with rfl | rfl <;> simp)
    | (rcases hkv with rfl <;> simp)

theorem rowSpeedBlock_keys (lp : List String) (m : PosMsg) :
    ∀ kv ∈ rowSpeedBlock lp m, kv.1 ∈ ["speed_kph", "speed_mps"] := by
  intro kv hkv
  unfold rowSpeedBlock at hkv
  repeat' split at hkv
  all_goals simp only [List.mem_singleton, List.not_mem_nil] at hkv
  all_goals (rcases hkv with rfl <;> simp)

theorem rowBatteryBlock_keys (lps : TableSchema) (m : PosMsg) :
    ∀ kv ∈ rowBatteryBlock lps m, kv.1 = "battery" := by
  intro kv hkv
  unfold rowBatteryBlock at hkv
  split at hkv
  · split at hkv
    rcases mem_ite_list hkv with h | h <;>
      simp only [List.mem_singleton] at h <;> (subst h; rfl)
  · simp at hkv

theorem rowDeviceBlock_keys (db : SpotDb) (uid : String) (dd : Option String)
    (dr : Bool) (m : PosMsg) :
    ∀ kv ∈ rowDeviceBlock db uid dd dr m, kv.1 = "device_id" := by
  intro kv hkv
  unfold rowDeviceBlock at hkv
  split at hkv
  · cases hdev : spotRowDeviceId db uid dd dr m with
    | some i =>
      rw [hdev] at hkv
      simp only [List.mem_singleton] at hkv
      subst hkv; rfl
    | none =>
      rw [hdev] at hkv
      simp at hkv
  · simp at hkv

theorem rowRawBlock_keys (lp : List String) (m : PosMsg) :
    ∀ kv ∈ rowRawBlock lp m, kv.1 = "raw" := by
  intro kv hkv
  unfold rowRawBlock at hkv
  repeat' split at hkv
  all_goals simp only [List.mem_singleton, List.not_mem_nil] at hkv
  all_goals (rcases hkv with rfl; rfl)

/-- Looking up a coordinate parameter in a geometry-branch bound row
yields the record's own field: the head block cannot shadow it and
the later blocks cannot provide it. -/
theorem rowVal_buildSpotRow_coord (db : SpotDb) (uid : String) (dd : Option String)
    (dr : Bool) (m : PosMsg) (hg : db.live_positions.names.contains "geom" = true) :
    rowVal (buildSpotRow db uid dd dr m) "lat" = m.lat.map BVal.r ∧
    rowVal (buildSpotRow db uid dd dr m) "lon" = m.lon.map BVal.r ∧
    rowVal (buildSpotRow db uid dd dr m) "z" = m.z.map BVal.r := by
  have hcoord : rowCoordBlock db.live_positions.names m =
      [("lat", m.lat.map BVal.r), ("lon", m.lon.map BVal.r), ("z", m.z.map BVal.r)] := by
    unfold rowCoordBlock
    rw [if_pos hg]
  have hhead : ∀ c, c ≠ "ts" → c ≠ "user_id" →
      rowHasKey (rowHeadBlock db.live_positions.names uid m) c = false := by
    intro c h1 h2
    refine rowHasKey_eq_false_of_keys (rowHeadBlock_keys _ _ _) ?_
    simp [h1, h2]
  have hstep : ∀ c, c ≠ "ts" → c ≠ "user_id" →
      rowVal (buildSpotRow db uid dd dr m) c =
        if rowHasKey (rowCoordBlock db.live_positions.names m) c then
          rowVal (rowCoordBlock db.live_positions.names m) c
        else rowVal (rowSpeedBlock db.live_positions.names m ++
          (rowBatteryBlock db.live_positions m ++
            (rowDeviceBlock db uid dd dr m ++ rowRawBlock db.live_positions.names m))) c := by
    intro c h1 h2
    unfold buildSpotRow
    simp only [List.append_assoc]
    rw [rowVal_append, hhead c h1 h2]
    simp only [Bool.false_eq_true, if_false]
    rw [rowVal_append]
  refine ⟨?_, ?_, ?_⟩ <;>
    rw [hstep _ (by decide) (by decide), hcoord] <;> simp [rowHasKey, rowVal, List.find?]

/-! ### C10 — speed unit conversion -/

/-- C10: when `live_positions` has a `speed_mps` column and no
`speed_kph` column, a message whose speed parsed to a number binds
`speed_mps` to that speed divided by 3.6 (= 18/5 exactly, converting
km/h to m/s); a message with no parsed speed binds no speed value
(the parameter is NULL). -/
theorem speed_mps_conversion (db : SpotDb) (uid : String) (dd : Option String)
    (dr : Bool) (m : PosMsg)
    (hmps : db.live_positions.names.contains "speed_mps" = true)
    (hkph : db.live_positions.names.contains "speed_kph" = false) :
    (∀ q : Rat, m.speed_kph = some q →
      rowVal (buildSpotRow db uid dd dr m) "speed_mps" = some (.r (q / (18 / 5)))) ∧
    (m.speed_kph = none → rowVal (buildSpotRow db uid dd dr m) "speed_mps" = none) := by
  have hhead : rowHasKey (rowHeadBlock db.live_positions.names uid m) "speed_mps" = false :=
    rowHasKey_eq_false_of_keys (rowHeadBlock_keys _ _ _) (by simp)
  have hc : rowHasKey (rowCoordBlock db.live_positions.names m) "speed_mps" = false :=
    rowHasKey_eq_false_of_keys (rowCoordBlock_keys _ _) (by simp)
  have hb : rowHasKey (rowBatteryBlock db.live_positions m) "speed_mps" = false :=
    @rowHasKey_eq_false_of_keys _ ["battery"] (fun kv h => by
      simp [rowBatteryBlock_keys _ _ kv h]) _ (by simp)
  have hd : rowHasKey (rowDeviceBlock db uid dd dr m) "speed_mps" = false :=
    @rowHasKey_eq_false_of_keys _ ["device_id"] (fun kv h => by
      simp [rowDeviceBlock_keys _ _ _ _ _ kv h]) _ (by simp)
  have hr : rowHasKey (rowRawBlock db.live_positions.names m) "speed_mps" = false :=
    @rowHasKey_eq_false_of_keys _ ["raw"] (fun kv h => by
      simp [rowRawBlock_keys _ _ kv h]) _ (by simp)
  have hstep : rowVal (buildSpotRow db uid dd dr m) "speed_mps" =
      rowVal (rowSpeedBlock db.live_positions.names m) "speed_mps" := by
    unfold buildSpotRow
    simp only [List.append_assoc]
    rw [rowVal_append, hhead]
    simp only [Bool.false_eq_true, if_false]
    rw [rowVal_append, hc]
    simp only [Bool.false_eq_true, if_false]
    rw [rowVal_append]
    cases hsk : rowHasKey (rowSpeedBlock db.live_positions.names m) "speed_mps" with
    | true => simp
    | false =>
      simp only [Bool.false_eq_true, if_false]
      rw [rowVal_eq_none_of_not_hasKey hsk, rowVal_append, hb]
      simp only [Bool.false_eq_true, if_false]
      rw [rowVal_append, hd]
      simp only [Bool.false_eq_true, if_false]
      rw [rowVal_eq_none_of_not_hasKey hr]
  have hkmem : ¬ "speed_kph" ∈ db.live_positions.names := by simpa using hkph
  have hmmem : "speed_mps" ∈ db.live_positions.names := by simpa using hmps
  constructor
  · intro q hq
    rw [hstep]
    unfold rowSpeedBlock
    rw [if_neg (by simp [hkmem]), if_pos (by simp [hmmem, hq])]
    simp [rowVal, List.find?, hq]
  · intro hq
    rw [hstep]
    unfold rowSpeedBlock
    rw [if_neg (by simp [hq]), if_neg (by simp [hq])]
    exact rowVal_nil _

/-- Witness for the speed conversion: a concrete schema with only
`speed_mps` and a message at 36 km/h binds 10 m/s; with no parsed
speed it binds nothing. -/
theorem speed_mps_conversion_witness :
    rowVal (buildSpotRow
      ⟨⟨[("ts", ⟨"timestamp with time zone", "timestamptz", "NO", none⟩),
         ("geom", ⟨"USER-DEFINED", "geometry", "NO", none⟩),
         ("speed_mps", ⟨"double precision", "float8", "YES", none⟩)]⟩,
        ⟨[]⟩, [], .ok none, ⟨[], 0⟩⟩ "u1" none false
      ⟨some 5, some 6, none, .fromUnix 100, some 36, none, none, none, none⟩)
      "speed_mps" = some (.r 10) := by
  have h := (speed_mps_conversion
    ⟨⟨[("ts", ⟨"timestamp with time zone", "timestamptz", "NO", none⟩),
       ("geom", ⟨"USER-DEFINED", "geometry", "NO", none⟩),
       ("speed_mps", ⟨"double precision", "float8", "YES", none⟩)]⟩,
      ⟨[]⟩, [], .ok none, ⟨[], 0⟩⟩ "u1" none false
    ⟨some 5, some 6, none, .fromUnix 100, some 36, none, none, none, none⟩
    rfl rfl).1 36 rfl
  rw [h]
  norm_num

/-! ### C3 — geometry point expression binds (lon, lat[, z]) -/

/-- C3: a record written through the geometry representation evaluates
its point expression to coordinates in the order
(longitude, latitude) — never (latitude, longitude) — and a
3-dimensional geometry column takes the record's elevation as third
coordinate, defaulting to 0.0 when the record carries none.  Stated
for the feed planner's bound rows and for the track-upload planner's
bound rows. -/
theorem point_expr_lon_lat_order (dim srid : Int) :
    (∀ (db : SpotDb) (uid : String) (dd : Option String) (dr : Bool) (m : PosMsg)
      (la lo : Rat), db.live_positions.names.contains "geom" = true →
      m.lat = some la → m.lon = some lo →
      evalPoint (mkPointSql dim srid) (buildSpotRow db uid dd dr m) =
        some (if dim ≥ 3 then [lo, la, m.z.getD 0] else [lo, la])) ∧
    (∀ (trackId : String) (hasElev includeId : Bool) (baseTs : Int) (i : Nat)
      (p : GpxPoint) (la lo : Rat), p.latitude = some la → p.longitude = some lo →
      ∃ r, buildTrackPointRowGeom trackId hasElev includeId baseTs i p = some r ∧
        evalPoint (mkPointSql dim srid) r =
          some (if dim ≥ 3 then [lo, la, p.elevation.getD 0] else [lo, la])) := by
  constructor
  · intro db uid dd dr m la lo hg hla hlo
    obtain ⟨h1, h2, h3⟩ := rowVal_buildSpotRow_coord db uid dd dr m hg
    unfold mkPointSql
    by_cases hdim : dim ≥ 3
    · rw [if_pos hdim]
      simp only [evalPoint, if_pos hdim]
      cases hz : m.z with
      | none => simp [List.mapM, List.mapM.loop, evalArg, h1, h2, h3, hla, hlo, hz]
      | some z => simp [List.mapM, List.mapM.loop, evalArg, h1, h2, h3, hla, hlo, hz]
    · rw [if_neg hdim]
      simp only [evalPoint, if_neg hdim]
      simp [List.mapM, List.mapM.loop, evalArg, h1, h2, hla, hlo]
  · intro trackId hasElev includeId baseTs i p la lo hla hlo
    refine ⟨_, by unfold buildTrackPointRowGeom; rw [hla, hlo], ?_⟩
    have hlat : rowVal (([("track_id", some (.s trackId)),
        ("ts", some (.ti (p.time.getD (baseTs + i)))),
        ("lat", some (.r la)), ("lon", some (.r lo)), ("z", p.elevation.map .r)] : Row) ++
        (if hasElev then [("elev_m", p.elevation.map BVal.r)] else []) ++
        (if includeId then [("id", some (BVal.s ("ptid-" ++ toString i)))] else []))
        "lat" = some (.r la) := by
      simp only [List.append_assoc]
      simp [rowVal, List.find?]
    unfold mkPointSql
    by_cases hdim : dim ≥ 3
    · rw [if_pos hdim]
      simp only [evalPoint]
      cases hz : p.elevation with
      | none =>
        simp only [List.append_assoc]
        simp [List.mapM, List.mapM.loop, evalArg, rowVal, List.find?, hz, hdim]
      | some z =>
        simp only [List.append_assoc]
        simp [List.mapM, List.mapM.loop, evalArg, rowVal, List.find?, hz, hdim]
    · rw [if_neg hdim]
      simp only [evalPoint]
      simp only [List.append_assoc]
      simp [List.mapM, List.mapM.loop, evalArg, rowVal, List.find?, hdim]

/-- Witness for the point-expression order: a concrete 3-D schema, a
record at (lat 5, lon 6) with no elevation evaluates to
(6, 5, 0) — longitude first, elevation defaulted. -/
theorem point_expr_lon_lat_order_witness :
    evalPoint (mkPointSql 3 4326) (buildSpotRow
      ⟨⟨[("geom", ⟨"USER-DEFINED", "geometry", "NO", none⟩)]⟩,
        ⟨[]⟩, [], .ok (some (some 3, some 4326)), ⟨[], 0⟩⟩ "u1" none false
      ⟨some 5, some 6, none, .fromUnix 100, none, none, none, none, none⟩) =
      some [6, 5, 0] := by
  have h := (point_expr_lon_lat_order 3 4326).1
    ⟨⟨[("geom", ⟨"USER-DEFINED", "geometry", "NO", none⟩)]⟩,
      ⟨[]⟩, [], .ok (some (some 3, some 4326)), ⟨[], 0⟩⟩ "u1" none false
    ⟨some 5, some 6, none, .fromUnix 100, none, none, none, none, none⟩ 5 6 rfl rfl rfl
  rw [h]
  norm_num

/-! ### C8 — synthesized timestamps for timestamp-less uploads -/

/-- C8: for an uploaded track whose points carry no timestamps,
`startedAt = now`, `endedAt = now + (pointCount - 1)` seconds, the
point at 0-based sequence `i` gets timestamp `now + i` seconds (in
both track-point planner branches), and a 3-point file satisfies
`startedAt = endedAt - 2` seconds. -/
theorem synthesized_timestamps :
    (∀ (pts : List GpxPoint) (now : Int), (∀ p ∈ pts, p.time = none) →
      timeWindow pts now = (now, now + ((pts.length - 1 : Nat) : Int), now)) ∧
    (∀ (pts : List GpxPoint) (now : Int), (∀ p ∈ pts, p.time = none) →
      pts.length = 3 →
      (timeWindow pts now).1 = (timeWindow pts now).2.1 - 2) ∧
    (∀ (trackId : String) (hasElev includeId : Bool) (now : Int) (i : Nat)
      (p : GpxPoint) (r : Row), p.time = none →
      buildTrackPointRowGeom trackId hasElev includeId now i p = some r →
      rowVal r "ts" = some (.ti (now + i))) ∧
    (∀ (trackId : String) (tpl : List String) (now : Int) (i : Nat) (p : GpxPoint),
      p.time = none → tpl.contains "t" = true →
      rowVal (buildTrackPointRowClassic trackId tpl now i p) "t" =
        some (.ti (now + i))) := by
  have hwin : ∀ (pts : List GpxPoint) (now : Int), (∀ p ∈ pts, p.time = none) →
      timeWindow pts now = (now, now + ((pts.length - 1 : Nat) : Int), now) := by
    intro pts now h
    have htimes : pts.filterMap (fun p => p.time) = [] := by
      rw [List.filterMap_eq_nil]
      intro p hp
      simp [h p hp]
    unfold timeWindow
    rw [htimes]
  refine ⟨hwin, ?_, ?_, ?_⟩
  · intro pts now h hlen
    rw [hwin pts now h, hlen]
    norm_num
  · intro trackId hasElev includeId now i p r ht hr
    unfold buildTrackPointRowGeom at hr
    cases hla : p.latitude with
    | none => rw [hla] at hr; exact Option.noConfusion hr
    | some la =>
      cases hlo : p.longitude with
      | none => rw [hla, hlo] at hr; exact Option.noConfusion hr
      | some lo =>
        rw [hla, hlo] at hr
        cases hr
        simp only [List.append_assoc]
        rw [rowVal_append]
        simp [rowVal, rowHasKey, List.find?, ht]
  · intro trackId tpl now i p ht htpl
    unfold buildTrackPointRowClassic
    simp only [List.append_assoc]
    rw [rowVal_append]
    rw [if_neg (by simp [rowHasKey, List.find?])]
    have hlat : ∀ (l : Row), rowVal ((if tpl.contains "lat" then
        ([("lat", p.latitude.map BVal.r)] : Row) else []) ++ l) "t" = rowVal l "t" := by
      intro l
      rw [rowVal_append]
      split <;> simp [rowHasKey, List.find?]
    have hlon : ∀ (l : Row), rowVal ((if tpl.contains "lon" then
        ([("lon", p.longitude.map BVal.r)] : Row) else []) ++ l) "t" = rowVal l "t" := by
      intro l
      rw [rowVal_append]
      split <;> simp [rowHasKey, List.find?]
    have hlng : ∀ (l : Row), rowVal ((if tpl.contains "lng" then
        ([("lng", p.longitude.map BVal.r)] : Row) else []) ++ l) "t" = rowVal l "t" := by
      intro l
      rw [rowVal_append]
      split <;> simp [rowHasKey, List.find?]
    have hele : ∀ (l : Row), rowVal ((if tpl.contains "ele" then
        ([("ele", p.elevation.map BVal.r)] : Row) else []) ++ l) "t" = rowVal l "t" := by
      intro l
      rw [rowVal_append]
      split <;> simp [rowHasKey, List.find?]
    rw [hlat, hlon, hlng, hele, if_pos (by simp_all)]
    simp [rowVal, List.find?, ht]

/-- Witness: a 3-point timestamp-less upload at `now = 1000` has
window `(1000, 1002)` — `startedAt = endedAt - 2` — and its middle
point is stamped `1001`. -/
theorem synthesized_timestamps_witness :
    timeWindow [⟨some 0, some 0, some 10, none⟩, ⟨some (9/10000), some 0, some (25/2), none⟩,
      ⟨some (18/10000), some 0, some 9, none⟩] 1000 = (1000, 1002, 1000) ∧
    rowVal (buildTrackPointRowClassic "t1" ["track_id", "seq", "lat", "lon", "t"] 1000 1
      ⟨some (9/10000), some 0, some (25/2), none⟩) "t" = some (.ti 1001) := by
  constructor
  · rw [synthesized_timestamps.1 _ 1000 (by intro p hp; fin_cases hp <;> rfl)]
    rfl
  · rw [synthesized_timestamps.2.2.2 "t1" ["track_id", "seq", "lat", "lon", "t"] 1000 1
      ⟨some (9/10000), some 0, some (25/2), none⟩ rfl rfl]
    rfl

/-! ### C1 — scalar template selection and UnsupportedSchema -/

theorem chooseTemplate_of_first (opts : List (List String)) (names : List String)
    (tpl : List String) (h : FirstMatchingTemplate opts names tpl) :
    chooseTemplate opts names = some tpl := by
  obtain ⟨⟨pre, post, heq, hpre⟩, htpl⟩ := h
  subst heq
  unfold chooseTemplate
  rw [List.find?_append]
  have h1 : List.find? (fun t => t.all names.contains) pre = none := by
    rw [List.find?_eq_none]
    intro t ht
    have hnall := hpre t ht
    simp only [List.all_eq_true]
    intro hall
    apply hnall
    intro c hc
    simpa using hall c hc
  have h2 : tpl.all names.contains = true := by
    simp only [List.all_eq_true]
    intro c hc
    simpa using htpl c hc
  rw [h1]
  have := @List.find?_cons_of_pos _ (fun t : List String => t.all names.contains) tpl post h2
  simp only [Option.or]
  exact this

theorem chooseTemplate_none (opts : List (List String)) (names : List String)
    (h : ∀ t ∈ opts, ¬ (∀ c ∈ t, c ∈ names)) :
    chooseTemplate opts names = none := by
  unfold chooseTemplate
  rw [List.find?_eq_none]
  intro t ht hall
  apply h t ht
  intro c hc
  simpa using (List.all_eq_true.mp hall) c hc

/-- Unfolding of `insert_positions` in the scalar (no geometry
column) case when no device reference is required. -/
theorem insert_positions_classic (db : SpotDb) (uid : String) (msgs : List PosMsg)
    (hg : db.live_positions.names.contains "geom" = false)
    (hd : spotDeviceRequired db = false) (hm : msgs ≠ []) :
    insert_positions db uid msgs =
      match chooseTemplate template_opts db.live_positions.names with
      | none => .error (.unsupportedSchema (sortedNames db.live_positions.names))
      | some tpl => .ok (msgs.length, some
          { table := "live_positions", cols := tpl, values := tpl.map .bind,
            rows := (msgs.map (buildSpotRow db uid none (spotDeviceRequired db))).map
              (fun r => tpl.foldl rowSetdefault r) }) := by
  have hne : (msgs.map (buildSpotRow db uid none false)).isEmpty = false := by
    cases msgs with
    | nil => exact absurd rfl hm
    | cons a l => rfl
  unfold insert_positions
  simp only [hd, hg, if_false, Bool.false_eq_true, false_and, pure_bind, hne, not_false_iff]
  unfold spotClassicExec
  cases hct : chooseTemplate template_opts db.live_positions.names with
  | none => rfl
  | some tpl =>
    simp only [hct, List.length_map]

/-- C1: for every live column set in the scalar representation, both
write planners select the *first* entry of their ordered template list
whose full column set is contained in the live columns and build the
insert over exactly those columns; when no template's column set is
contained, they fail with an `UnsupportedSchema` error naming the
table's actual (sorted, deduplicated) column set, and no insert
statement is built. -/
theorem scalar_template_selection :
    (∀ (db : SpotDb) (uid : String) (msgs : List PosMsg),
      db.live_positions.names.contains "geom" = false →
      spotDeviceRequired db = false → msgs ≠ [] →
      (∀ tpl, FirstMatchingTemplate template_opts db.live_positions.names tpl →
        ∃ st, insert_positions db uid msgs = .ok (msgs.length, some st) ∧
          st.cols = tpl ∧ st.values = tpl.map .bind) ∧
      ((∀ t ∈ template_opts, ¬ (∀ c ∈ t, c ∈ db.live_positions.names)) →
        insert_positions db uid msgs =
          .error (.unsupportedSchema (sortedNames db.live_positions.names)))) ∧
    (∀ (db : TracksDb) (trackId : String) (pts : List GpxPoint) (baseTs : Int),
      ¬(db.track_points.names.contains "track_id" = true ∧
        db.track_points.names.contains "geom" = true ∧
        db.track_points.names.contains "ts" = true) →
      (∀ tpl, FirstMatchingTemplate classic_templates db.track_points.names tpl →
        ∃ st, plan_track_points db trackId pts baseTs = .ok st ∧ st.cols = tpl ∧
          st.values = tpl.map .bind) ∧
      ((∀ t ∈ classic_templates, ¬ (∀ c ∈ t, c ∈ db.track_points.names)) →
        plan_track_points db trackId pts baseTs =
          .error (.unsupportedSchema (sortedNames db.track_points.names)))) := by
  constructor
  · intro db uid msgs hg hd hm
    constructor
    · intro tpl hfirst
      rw [insert_positions_classic db uid msgs hg hd hm,
        chooseTemplate_of_first _ _ _ hfirst]
      exact ⟨_, rfl, rfl, rfl⟩
    · intro hnone
      rw [insert_positions_classic db uid msgs hg hd hm,
        chooseTemplate_none _ _ hnone]
  · intro db trackId pts baseTs hng
    constructor
    · intro tpl hfirst
      unfold plan_track_points
      rw [if_neg hng, chooseTemplate_of_first _ _ _ hfirst]
      exact ⟨_, rfl, rfl, rfl⟩
    · intro hnone
      unfold plan_track_points
      rw [if_neg hng, chooseTemplate_none _ _ hnone]

/-- Witness for template selection: a `{ts, lat, lon}` table picks the
third template (the first whose columns are all present); a `{foo}`
table is rejected with its own column set in the error. -/
theorem scalar_template_selection_witness :
    (∃ st, insert_positions
        ⟨⟨[("ts", ⟨"timestamp with time zone", "timestamptz", "NO", none⟩),
           ("lat", ⟨"double precision", "float8", "YES", none⟩),
           ("lon", ⟨"double precision", "float8", "YES", none⟩)]⟩,
          ⟨[]⟩, [], .ok none, ⟨[], 0⟩⟩ "u1"
        [⟨some 5, some 6, none, .fromUnix 100, none, none, none, none, none⟩] =
        .ok (1, some st) ∧ st.cols = ["ts", "lat", "lon"] ∧
        st.values = ["ts", "lat", "lon"].map .bind) ∧
    insert_positions
        ⟨⟨[("foo", ⟨"text", "text", "YES", none⟩)]⟩, ⟨[]⟩, [], .ok none, ⟨[], 0⟩⟩ "u1"
        [⟨some 5, some 6, none, .fromUnix 100, none, none, none, none, none⟩] =
      .error (.unsupportedSchema ["foo"]) := by
  constructor
  · exact (scalar_template_selection.1
      ⟨⟨[("ts", ⟨"timestamp with time zone", "timestamptz", "NO", none⟩),
         ("lat", ⟨"double precision", "float8", "YES", none⟩),
         ("lon", ⟨"double precision", "float8", "YES", none⟩)]⟩,
        ⟨[]⟩, [], .ok none, ⟨[], 0⟩⟩ "u1"
      [⟨some 5, some 6, none, .fromUnix 100, none, none, none, none, none⟩]
      rfl rfl (by simp)).1 ["ts", "lat", "lon"]
      ⟨⟨[["user_id", "ts", "lat", "lon"], ["user_id", "ts", "lat", "lng"]],
        [["ts", "lat", "lng"]], rfl, by decide⟩, by decide⟩
  · have h := (scalar_template_selection.1
      ⟨⟨[("foo", ⟨"text", "text", "YES", none⟩)]⟩, ⟨[]⟩, [], .ok none, ⟨[], 0⟩⟩ "u1"
      [⟨some 5, some 6, none, .fromUnix 100, none, none, none, none, none⟩]
      rfl rfl (by simp)).2 (by decide)
    exact h

/-! ### C2 — handling of coordinate-less rows -/

theorem rowVal_setdefault (r : Row) (c' c : String) :
    rowVal (rowSetdefault r c') c = rowVal r c := by
  unfold rowSetdefault
  split
  · rfl
  · rename_i hnk
    rw [rowVal_append]
    cases hk : rowHasKey r c with
    | true => simp
    | false =>
      simp only [Bool.false_eq_true, if_false]
      rw [rowVal_eq_none_of_not_hasKey hk]
      by_cases he : c' = c <;> simp [rowVal, List.find?, he]

theorem rowVal_foldl_setdefault (cs : List String) (r : Row) (c : String) :
    rowVal (cs.foldl rowSetdefault r) c = rowVal r c := by
  induction cs generalizing r with
  | nil => rfl
  | cons x xs ih => rw [List.foldl_cons, ih, rowVal_setdefault]

theorem insert_positions_nil (db : SpotDb) (uid : String)
    (hd : spotDeviceRequired db = false) :
    insert_positions db uid [] = .ok (0, none) := by
  unfold insert_positions
  simp only [hd, Bool.false_eq_true, if_false, pure_bind]
  rfl

/-- Unfolding of `insert_positions` in the geometry case when no
device reference is required. -/
theorem insert_positions_geomBranch (db : SpotDb) (uid : String) (msgs : List PosMsg)
    (hg : db.live_positions.names.contains "geom" = true)
    (hd : spotDeviceRequired db = false) (hm : msgs ≠ []) :
    insert_positions db uid msgs =
      spotGeomExec db db.live_positions.names
        (db.live_positions.names.contains "device_id" ∧
          (msgs.map (buildSpotRow db uid none false)).all
            (fun r => (rowVal r "device_id").isSome))
        (msgs.map (buildSpotRow db uid none false)) := by
  have hne : (msgs.map (buildSpotRow db uid none false)).isEmpty = false := by
    cases msgs with
    | nil => exact absurd rfl hm
    | cons a l => rfl
  unfold insert_positions
  simp only [hd, hg, Bool.false_eq_true, if_false, false_and, pure_bind, hne,
    not_false_iff, eq_self_iff_true, if_true]

/-- The geometry-branch post-processing drops exactly the rows of
coordinate-less messages, preserving order. -/
theorem spotGeomRows_map_build (db : SpotDb) (uid : String) (msgs : List PosMsg)
    (cols : List String) (hg : db.live_positions.names.contains "geom" = true) :
    spotGeomRows cols (msgs.map (buildSpotRow db uid none false)) =
      (msgs.filter (fun m => m.lat.isSome ∧ m.lon.isSome)).map
        ((fun r => (cols.filter (fun c => c ≠ "geom")).foldl rowSetdefault r) ∘
          (buildSpotRow db uid none false)) := by
  unfold spotGeomRows
  rw [List.map_map, List.filter_map]
  congr 1
  apply List.filter_congr
  intro m _
  obtain ⟨h1, h2, _⟩ := rowVal_buildSpotRow_coord db uid none false m hg
  simp only [Function.comp, rowVal_foldl_setdefault, h1, h2]
  cases m.lat <;> cases m.lon <;> simp

theorem spotGeomExec_cases (db : SpotDb) (lp : List String) (incD : Bool)
    (rows0 : List Row) :
    spotGeomExec db lp incD rows0 =
      if (spotGeomRows (spotGeomCols lp incD) rows0).isEmpty then .ok (0, none)
      else .ok ((spotGeomRows (spotGeomCols lp incD) rows0).length, some
        { table := "live_positions"
          cols := spotGeomCols lp incD
          values := (spotGeomCols lp incD).map (fun c =>
            if c = "geom" then .point (mkPointSql (geomInfoVal db.geomQuery).1
              (geomInfoVal db.geomQuery).2) else .bind c)
          rows := spotGeomRows (spotGeomCols lp incD) rows0 }) := rfl

theorem coordinateless_spot (db : SpotDb) (uid : String) (msgs : List PosMsg)
    (hg : db.live_positions.names.contains "geom" = true)
    (hd : spotDeviceRequired db = false) :
      ((msgs.filter (fun m => m.lat.isSome ∧ m.lon.isSome)).isEmpty = true →
        insert_positions db uid msgs = .ok (0, none)) ∧
      ((msgs.filter (fun m => m.lat.isSome ∧ m.lon.isSome)).isEmpty = false →
        ∃ st, insert_positions db uid msgs =
            .ok ((msgs.filter (fun m => m.lat.isSome ∧ m.lon.isSome)).length, some st) ∧
          st.rows.length = (msgs.filter (fun m => m.lat.isSome ∧ m.lon.isSome)).length) := by
  cases hmm : msgs with
  | nil =>
    refine ⟨fun _ => insert_positions_nil db uid hd, fun hk => ?_⟩
    simp at hk
  | cons m0 ms0 =>
    rw [← hmm]
    have hm : msgs ≠ [] := by rw [hmm]; simp
    rw [insert_positions_geomBranch db uid msgs hg hd hm, spotGeomExec_cases,
      spotGeomRows_map_build db uid msgs _ hg]
    constructor
    · intro hk
      rw [List.isEmpty_iff] at hk
      rw [hk]
      simp
    · intro hk
      have hkne : (msgs.filter (fun m => m.lat.isSome ∧ m.lon.isSome)) ≠ [] := by
        intro h
        rw [h] at hk
        simp at hk
      rw [if_neg ?hne]
      case hne =>
        intro hcon
        rw [List.isEmpty_iff] at hcon
        exact hkne (by simpa using hcon)
      exact ⟨_, by rw [List.length_map], by rw [List.length_map]⟩

theorem buildTrackPointRowGeom_isSome (trackId : String) (he ii : Bool) (baseTs : Int)
    (i : Nat) (p : GpxPoint) :
    (buildTrackPointRowGeom trackId he ii baseTs i p).isSome =
      (p.latitude.isSome ∧ p.longitude.isSome) := by
  cases hla : p.latitude <;> cases hlo : p.longitude <;>
    simp [buildTrackPointRowGeom, hla, hlo]

theorem isEmpty_eq_of_length_eq {α β : Type} {l1 : List α} {l2 : List β}
    (h : l1.length = l2.length) : l1.isEmpty = l2.isEmpty := by
  cases l1 <;> cases l2 <;> simp_all

theorem trackGeomRows_length (trackId : String) (he ii : Bool) (baseTs : Int)
    (pts : List GpxPoint) :
    (pts.enum.filterMap (fun ip =>
        buildTrackPointRowGeom trackId he ii baseTs ip.1 ip.2)).length =
      (pts.filter (fun p => p.latitude.isSome ∧ p.longitude.isSome)).length := by
  rw [length_filterMap_eq_countP, ← List.countP_eq_length_filter]
  have key : ∀ st, (List.enumFrom st pts).countP (fun ip =>
      (buildTrackPointRowGeom trackId he ii baseTs ip.1 ip.2).isSome) =
      pts.countP (fun p => p.latitude.isSome ∧ p.longitude.isSome) := by
    induction pts with
    | nil => intro st; rfl
    | cons p ps ih =>
      intro st
      rw [show List.enumFrom st (p :: ps) = (st, p) :: List.enumFrom (st + 1) ps from rfl,
        List.countP_cons, List.countP_cons, ih]
      congr 1
      simp [buildTrackPointRowGeom_isSome]
  exact key 0

/-- C2 (amended): rows lacking a required coordinate are dropped
before the insert executes in both geometry branches, but the two
planners disagree on an all-dropped batch: the feed planner reports
zero rows written without an error, while the track-point planner
raises a client error ("GPX contains no valid coordinate points");
and the scalar track-point branch binds coordinate-less rows without
dropping them at all (their count equals the full point count). -/
theorem coordinateless_row_handling :
    (∀ (db : SpotDb) (uid : String) (msgs : List PosMsg),
      db.live_positions.names.contains "geom" = true →
      spotDeviceRequired db = false →
      ((msgs.filter (fun m => m.lat.isSome ∧ m.lon.isSome)).isEmpty = true →
        insert_positions db uid msgs = .ok (0, none)) ∧
      ((msgs.filter (fun m => m.lat.isSome ∧ m.lon.isSome)).isEmpty = false →
        ∃ st, insert_positions db uid msgs =
            .ok ((msgs.filter (fun m => m.lat.isSome ∧ m.lon.isSome)).length, some st) ∧
          st.rows.length = (msgs.filter (fun m => m.lat.isSome ∧ m.lon.isSome)).length)) ∧
    (∀ (db : TracksDb) (trackId : String) (pts : List GpxPoint) (baseTs : Int),
      db.track_points.names.contains "track_id" = true →
      db.track_points.names.contains "geom" = true →
      db.track_points.names.contains "ts" = true →
      ((pts.filter (fun p => p.latitude.isSome ∧ p.longitude.isSome)).isEmpty = true →
        plan_track_points db trackId pts baseTs = .error .invalidGpxNoCoordinatePoints) ∧
      ((pts.filter (fun p => p.latitude.isSome ∧ p.longitude.isSome)).isEmpty = false →
        ∃ st, plan_track_points db trackId pts baseTs = .ok st ∧
          st.rows.length =
            (pts.filter (fun p => p.latitude.isSome ∧ p.longitude.isSome)).length)) ∧
    (∀ (db : TracksDb) (trackId : String) (pts : List GpxPoint) (baseTs : Int)
      (tpl : List String),
      ¬(db.track_points.names.contains "track_id" = true ∧
        db.track_points.names.contains "geom" = true ∧
        db.track_points.names.contains "ts" = true) →
      chooseTemplate classic_templates db.track_points.names = some tpl →
      ∃ st, plan_track_points db trackId pts baseTs = .ok st ∧
        st.rows.length = pts.length) := by
  refine ⟨fun db uid msgs hg hd => coordinateless_spot db uid msgs hg hd, ?_, ?_⟩
  · intro db trackId pts baseTs h1 h2 h3
    have hrows_empty : ∀ he ii : Bool, (pts.enum.filterMap (fun ip =>
        buildTrackPointRowGeom trackId he ii baseTs ip.1 ip.2)).isEmpty =
        (pts.filter (fun p => p.latitude.isSome ∧ p.longitude.isSome)).isEmpty :=
      fun he ii => isEmpty_eq_of_length_eq (trackGeomRows_length trackId he ii baseTs pts)
    unfold plan_track_points
    rw [if_pos ⟨h1, h2, h3⟩]
    constructor
    · intro hk
      simp only [hrows_empty, hk, if_true]
    · intro hk
      simp only [hrows_empty, hk, Bool.false_eq_true, if_false]
      exact ⟨_, rfl, trackGeomRows_length trackId _ _ baseTs pts⟩
  · intro db trackId pts baseTs tpl hng hct
    unfold plan_track_points
    rw [if_neg hng, hct]
    refine ⟨_, rfl, ?_⟩
    simp [List.enum_length]

/-- C2 counterexample: handed one canonical record with no latitude,
the track-point planner's geometry branch raises a client error
instead of reporting zero rows without error, and its scalar branch
does not drop the row at all — the coordinate-less row is bound (with
`lat` NULL) into the statement. -/
theorem coordinateless_track_counterexample :
    plan_track_points
        ⟨⟨[]⟩, ⟨[("id", ⟨"bigint", "int8", "NO", some "seq"⟩),
          ("track_id", ⟨"uuid", "uuid", "NO", none⟩),
          ("ts", ⟨"timestamp with time zone", "timestamptz", "NO", none⟩),
          ("elev_m", ⟨"double precision", "float8", "YES", none⟩),
          ("geom", ⟨"USER-DEFINED", "geometry", "NO", none⟩)]⟩,
          .ok (some (some 3, some 4326))⟩
        "t1" [⟨none, some 1, none, none⟩] 0 =
      .error .invalidGpxNoCoordinatePoints ∧
    plan_track_points
        ⟨⟨[]⟩, ⟨[("track_id", ⟨"uuid", "uuid", "NO", none⟩),
          ("seq", ⟨"integer", "int4", "NO", none⟩),
          ("lat", ⟨"double precision", "float8", "YES", none⟩),
          ("lon", ⟨"double precision", "float8", "YES", none⟩),
          ("t", ⟨"timestamp with time zone", "timestamptz", "YES", none⟩)]⟩,
          .ok none⟩
        "t1" [⟨none, some 1, none, none⟩] 0 =
      .ok { table := "track_points"
            cols := ["track_id", "seq", "lat", "lon", "t"]
            values := ["track_id", "seq", "lat", "lon", "t"].map .bind
            rows := [[("track_id", some (.s "t1")), ("seq", some (.r 0)),
              ("lat", none), ("lon", some (.r 1)), ("t", some (.ti 0))]] } := by
  exact ⟨rfl, rfl⟩

/-- Witness for the amended C2 theorem at concrete inputs: a feed
batch whose only record lacks a longitude reports zero rows without
error, and a two-record batch keeps exactly the coordinate-carrying
one. -/
theorem coordinateless_row_handling_witness :
    insert_positions
        ⟨⟨[("ts", ⟨"timestamp with time zone", "timestamptz", "NO", none⟩),
           ("geom", ⟨"USER-DEFINED", "geometry", "NO", none⟩)]⟩,
          ⟨[]⟩, [], .ok (some (some 3, some 4326)), ⟨[], 0⟩⟩ "u1"
        [⟨some 5, none, none, .fromUnix 100, none, none, none, none, none⟩] =
      .ok (0, none) ∧
    (∃ st, insert_positions
        ⟨⟨[("ts", ⟨"timestamp with time zone", "timestamptz", "NO", none⟩),
           ("geom", ⟨"USER-DEFINED", "geometry", "NO", none⟩)]⟩,
          ⟨[]⟩, [], .ok (some (some 3, some 4326)), ⟨[], 0⟩⟩ "u1"
        [⟨some 5, some 6, none, .fromUnix 100, none, none, none, none, none⟩,
         ⟨some 5, none, none, .fromUnix 101, none, none, none, none, none⟩] =
      .ok (1, some st) ∧ st.rows.length = 1) := by
  constructor
  · exact (coordinateless_row_handling.1
      ⟨⟨[("ts", ⟨"timestamp with time zone", "timestamptz", "NO", none⟩),
         ("geom", ⟨"USER-DEFINED", "geometry", "NO", none⟩)]⟩,
        ⟨[]⟩, [], .ok (some (some 3, some 4326)), ⟨[], 0⟩⟩ "u1"
      [⟨some 5, none, none, .fromUnix 100, none, none, none, none, none⟩]
      rfl rfl).1 rfl
  · exact (coordinateless_row_handling.1
      ⟨⟨[("ts", ⟨"timestamp with time zone", "timestamptz", "NO", none⟩),
         ("geom", ⟨"USER-DEFINED", "geometry", "NO", none⟩)]⟩,
        ⟨[]⟩, [], .ok (some (some 3, some 4326)), ⟨[], 0⟩⟩ "u1"
      [⟨some 5, some 6, none, .fromUnix 100, none, none, none, none, none⟩,
       ⟨some 5, none, none, .fromUnix 101, none, none, none, none, none⟩]
      rfl rfl).2 rfl


/-! ### C4 -- feed normalizer counts and ordering -/

theorem parse_wrap (items : List J) :
    parse_spot_json (wrapPayload items) =
      match mapExcept extractJsonMsg items with
      | .error e => .error e
      | .ok outs => .ok (outs.filterMap id) := by
  cases h : mapExcept extractJsonMsg items with
  | error e =>
    simp [parse_spot_json, wrapPayload, mget, mgetD, pget, pgetRaw, pyOr, otruthy,
      J.truthy, collapseNull, h, List.find?, Except.instMonad, Except.bind, Except.pure]
  | ok outs =>
    simp [parse_spot_json, wrapPayload, mget, mgetD, pget, pgetRaw, pyOr, otruthy,
      J.truthy, collapseNull, h, List.find?, Except.instMonad, Except.bind, Except.pure]

theorem extract_obj (kvs : List (String × J)) :
    extractJsonMsg (.obj kvs) =
      (do
        let battery ← stripOrNone (pyOr (pget kvs "batteryState") (pget kvs "battery"))
        let msgType ← stripOrNone (pyOr (pget kvs "messageType") (pget kvs "type"))
        let esn ← stripOrNone (pyOr (pget kvs "esn") (pget kvs "messengerId"))
        match safeFloat (pyOr (pget kvs "latitude") (pget kvs "lat")),
          safeFloat (pyOr (pget kvs "longitude") (pyOr (pget kvs "lng") (pget kvs "lon"))) with
        | some la, some lo =>
          pure (some ⟨some la, some lo,
            safeFloat (pyOr (pget kvs "altitude") (pget kvs "alt")),
            parse_dt (pget kvs "unixTime") (pyOr (pget kvs "dateTime") (pget kvs "time")),
            safeFloat (pget kvs "speed"), battery, msgType, esn,
            (fun t => if t = "" then none else some t)
              (stripStr (pyStr ((pyOr (pget kvs "id")
                (pyOr (pget kvs "messageId") (some (.str "")))).getD (.str ""))))⟩)
        | _, _ => pure none) := by
  rfl


/-- The position a message extracts to (`none` = dropped or
uncaught-exception paths). -/
def jsonMsgVal (m : J) : Option PosMsg := (extractJsonMsg m).toOption.bind id

theorem extractJsonMsg_eq_of_isOk {m : J} (h : (extractJsonMsg m).isOk = true) :
    extractJsonMsg m = .ok (jsonMsgVal m) := by
  unfold jsonMsgVal
  cases he : extractJsonMsg m with
  | error e => rw [he] at h; simp [Except.isOk, Except.toBool] at h
  | ok v => simp [Except.toOption]

theorem jsonLatOf_obj (kvs : List (String × J)) :
    jsonLatOf (.obj kvs) = safeFloat (pyOr (pget kvs "latitude") (pget kvs "lat")) := rfl

theorem jsonLonOf_obj (kvs : List (String × J)) :
    jsonLonOf (.obj kvs) =
      safeFloat (pyOr (pget kvs "longitude") (pyOr (pget kvs "lng") (pget kvs "lon"))) := rfl

theorem jsonMsgVal_isSome {m : J} (h : (extractJsonMsg m).isOk = true) :
    (jsonMsgVal m).isSome = msgHasCoords m := by
  cases m with
  | obj kvs =>
    unfold jsonMsgVal msgHasCoords
    rw [jsonLatOf_obj, jsonLonOf_obj]
    rw [extract_obj] at h ⊢
    cases hb : stripOrNone (pyOr (pget kvs "batteryState") (pget kvs "battery")) with
    | error e =>
      simp [hb, Except.isOk, Except.toBool, Except.instMonad, Except.bind] at h
    | ok battery =>
      cases hm : stripOrNone (pyOr (pget kvs "messageType") (pget kvs "type")) with
      | error e =>
        simp [hb, hm, Except.isOk, Except.toBool, Except.instMonad, Except.bind] at h
      | ok msgType =>
        cases hes : stripOrNone (pyOr (pget kvs "esn") (pget kvs "messengerId")) with
        | error e =>
          simp [hb, hm, hes, Except.isOk, Except.toBool, Except.instMonad, Except.bind] at h
        | ok esn =>
          cases hla : safeFloat (pyOr (pget kvs "latitude") (pget kvs "lat")) <;>
            cases hlo : safeFloat (pyOr (pget kvs "longitude")
              (pyOr (pget kvs "lng") (pget kvs "lon"))) <;>
            simp [hb, hm, hes, hla, hlo, Except.instMonad, Except.bind,
              Except.toOption, Except.pure]
  | str s => simp [extractJsonMsg, mget, Except.isOk, Except.toBool, Except.instMonad, Except.bind] at h
  | num q => simp [extractJsonMsg, mget, Except.isOk, Except.toBool, Except.instMonad, Except.bind] at h
  | bool b => simp [extractJsonMsg, mget, Except.isOk, Except.toBool, Except.instMonad, Except.bind] at h
  | null => simp [extractJsonMsg, mget, Except.isOk, Except.toBool, Except.instMonad, Except.bind] at h
  | arr xs => simp [extractJsonMsg, mget, Except.isOk, Except.toBool, Except.instMonad, Except.bind] at h

/-- C4 (amended): for every canonical feed payload whose N messages
each extract without an uncaught exception, the normalizer returns the
messages' extractions in input order; its output length equals the
number of messages whose latitude and longitude both extract to
numbers under the parser's alias-and-truthiness rules, the dropped
count equals the number of messages where one of them does not, and
dropping is silent (the parse still succeeds).  In particular, when
every message's coordinates extract, exactly N positions come back. -/
theorem feed_normalizer_counts (items : List J)
    (h : ∀ m ∈ items, (extractJsonMsg m).isOk = true) :
    ∃ outs, parse_spot_json (wrapPayload items) = .ok outs ∧
      outs = items.filterMap jsonMsgVal ∧
      outs.length = items.countP msgHasCoords ∧
      items.length - outs.length = items.countP (fun m => ¬ msgHasCoords m) ∧
      ((∀ m ∈ items, msgHasCoords m = true) → outs.length = items.length) := by
  have hmap : mapExcept extractJsonMsg items = .ok (items.map jsonMsgVal) :=
    mapExcept_ok _ _ _ (fun m hm => extractJsonMsg_eq_of_isOk (h m hm))
  have hparse : parse_spot_json (wrapPayload items) = .ok (items.filterMap jsonMsgVal) := by
    rw [parse_wrap, hmap]
    show Except.ok ((items.map jsonMsgVal).filterMap id) =
      Except.ok (items.filterMap jsonMsgVal)
    rw [List.filterMap_map]
    rfl
  have hlen : (items.filterMap jsonMsgVal).length = items.countP msgHasCoords := by
    rw [length_filterMap_eq_countP]
    exact List.countP_congr (fun m hm => by rw [jsonMsgVal_isSome (h m hm)])
  refine ⟨_, hparse, rfl, hlen, ?_, ?_⟩
  · rw [hlen]
    have hsplit := List.length_eq_countP_add_countP msgHasCoords items
    have hcongr : items.countP (fun m => ¬ msgHasCoords m) =
        items.countP (fun m => !msgHasCoords m) :=
      List.countP_congr (fun m _ => by cases msgHasCoords m <;> simp)
    omega
  · intro hall
    rw [hlen]
    exact List.countP_eq_length.mpr hall

theorem feed_normalizer_counts_witness :
    ∃ outs, parse_spot_json (wrapPayload
      [.obj [("latitude", .num 5), ("longitude", .num 6)]]) = .ok outs ∧
      outs.length = 1 := by
  obtain ⟨outs, hp, _, _, _, hfull⟩ := feed_normalizer_counts
    [.obj [("latitude", .num 5), ("longitude", .num 6)]]
    (by intro m hm; fin_cases hm; rfl)
  refine ⟨outs, hp, ?_⟩
  rw [hfull (by intro m hm; fin_cases hm; rfl)]
  rfl

theorem zero_latitude_dropped :
    pget [("latitude", J.num 0), ("longitude", J.num 1)] "latitude" = some (.num 0) ∧
    pget [("latitude", J.num 0), ("longitude", J.num 1)] "longitude" = some (.num 1) ∧
    parse_spot_json (wrapPayload [.obj [("latitude", .num 0), ("longitude", .num 1)]]) =
      .ok [] := ⟨rfl, rfl, rfl⟩


theorem find?_addBind_ne (dev : TableSchema) (b : List (String × Option String))
    {c k : String} (v : Option String) (h : c ≠ k)
    (hb : b.find? (fun kv => kv.1 = k) = none) :
    (addBind dev b c v).find? (fun kv => kv.1 = k) = none := by
  unfold addBind
  split
  · rw [find?_append_singleton, hb]
    simp [h]
  · exact hb

theorem bindOf_addBind_ne (dev : TableSchema) (b : List (String × Option String))
    {c k : String} (v : Option String) (h : c ≠ k) :
    bindOf (addBind dev b c v) k = bindOf b k := by
  unfold addBind bindOf
  split
  · rw [find?_append_singleton]
    cases hf : b.find? (fun kv => kv.1 = k) with
    | some kv => simp [Option.or]
    | none => simp [Option.or, h]
  · rfl

theorem bindOf_addBind_self (dev : TableSchema) (b : List (String × Option String))
    {c : String} (v : Option String)
    (hb : b.find? (fun kv => kv.1 = c) = none)
    (hcond : dev.names.contains c = true ∧ (v.isSome ∨
      (dev.nullableOf c == some "NO" ∧ (dev.defaultOf c).isNone))) :
    bindOf (addBind dev b c v) c = v := by
  unfold addBind bindOf
  rw [if_pos hcond, find?_append_singleton, hb]
  simp [Option.or]

theorem mkDeviceRow_user_id (dev : TableSchema) (enums : List (String × List String))
    (uid : String) (esn : Option String) (i : String)
    (hin : dev.names.contains "user_id" = true) :
    (mkDeviceRow dev enums uid esn i).user_id = some uid := by
  show bindOf (mkDeviceBinds dev enums uid esn) "user_id" = some uid
  unfold mkDeviceBinds
  rw [bindOf_addBind_ne dev _ _ (by decide), bindOf_addBind_ne dev _ _ (by decide),
    bindOf_addBind_ne dev _ _ (by decide), bindOf_addBind_ne dev _ _ (by decide),
    bindOf_addBind_ne dev _ _ (by decide),
    bindOf_addBind_self dev _ _ List.find?_nil ⟨hin, Or.inl (by rw [if_pos hin]; rfl)⟩, if_pos hin]

theorem mkDeviceRow_provider (dev : TableSchema) (enums : List (String × List String))
    (uid : String) (esn : Option String) (i : String)
    (hpv : (enumColVal dev enums "provider" "spot" "spot").isSome = true)
    (hin : dev.names.contains "provider" = true) :
    (mkDeviceRow dev enums uid esn i).provider =
      enumColVal dev enums "provider" "spot" "spot" := by
  show bindOf (mkDeviceBinds dev enums uid esn) "provider" =
    enumColVal dev enums "provider" "spot" "spot"
  unfold mkDeviceBinds
  rw [bindOf_addBind_ne dev _ _ (by decide), bindOf_addBind_ne dev _ _ (by decide),
    bindOf_addBind_ne dev _ _ (by decide)]
  exact bindOf_addBind_self dev _ _
    (find?_addBind_ne dev _ _ (by decide) (find?_addBind_ne dev _ _ (by decide) List.find?_nil))
    ⟨hin, Or.inl hpv⟩

theorem mkDeviceRow_external_id (dev : TableSchema) (enums : List (String × List String))
    (uid : String) (esn : Option String) (i : String)
    (hin : dev.names.contains "external_id" = true) :
    (mkDeviceRow dev enums uid esn i).external_id = externalIdVal dev esn := by
  show bindOf (mkDeviceBinds dev enums uid esn) "external_id" = externalIdVal dev esn
  unfold mkDeviceBinds
  rw [bindOf_addBind_ne dev _ _ (by decide), bindOf_addBind_ne dev _ _ (by decide)]
  exact bindOf_addBind_self dev _ _
    (find?_addBind_ne dev _ _ (by decide) (find?_addBind_ne dev _ _ (by decide)
      (find?_addBind_ne dev _ _ (by decide) List.find?_nil)))
    ⟨hin, Or.inl (by unfold externalIdVal; rw [if_pos hin]; rfl)⟩

theorem mkDeviceRow_name (dev : TableSchema) (enums : List (String × List String))
    (uid : String) (esn : Option String) (i : String)
    (hin : dev.names.contains "name" = true) :
    (mkDeviceRow dev enums uid esn i).name = nameVal dev esn := by
  show bindOf (mkDeviceBinds dev enums uid esn) "name" = nameVal dev esn
  unfold mkDeviceBinds
  rw [bindOf_addBind_ne dev _ _ (by decide)]
  exact bindOf_addBind_self dev _ _
    (find?_addBind_ne dev _ _ (by decide) (find?_addBind_ne dev _ _ (by decide)
      (find?_addBind_ne dev _ _ (by decide) (find?_addBind_ne dev _ _ (by decide)
        List.find?_nil))))
    ⟨hin, Or.inl (by unfold nameVal; rw [if_pos hin]; rfl)⟩

theorem externalIdVal_truthy (dev : TableSchema) (esn : Option String)
    (hin : dev.names.contains "external_id" = true) :
    truthyS (externalIdVal dev esn) = true := by
  unfold externalIdVal
  rw [if_pos hin]
  cases esn with
  | none => simp [truthyS]
  | some s =>
    by_cases hs : s = "" <;> simp [truthyS, hs]

theorem nameVal_truthy (dev : TableSchema) (esn : Option String)
    (hin : dev.names.contains "name" = true) :
    truthyS (nameVal dev esn) = true := by
  unfold nameVal
  rw [if_pos hin]
  split
  · rename_i ht
    cases esn with
    | none => simp [truthyS] at ht
    | some s =>
      have hne : ("SPOT " ++ s) ≠ "" := by
        intro hcon
        have hl : ("SPOT " ++ s).length = 0 := by rw [hcon]; rfl
        rw [String.length_append] at hl
        have h5 : ("SPOT " : String).length = 5 := rfl
        omega
      simpa [truthyS, Option.getD] using hne
  · decide

theorem truthyS_isSome {v : Option String} (h : truthyS v = true) : v.isSome = true := by
  cases v with
  | none => simp [truthyS] at h
  | some s => rfl

theorem find?_singleton_pos {a : DeviceRow} {p : DeviceRow → Bool} (h : p a = true) :
    [a].find? p = some a := by
  simp [List.find?, h]

/-- C9: device resolution is idempotent.  Whenever the `devices` table
has an `id` column and at least one usable lookup column (a `user_id`
column, a `name` column, or a `(provider, external_id)` pair with a
truthy provider value -- every known schema variant has `user_id`),
calling `ensure_spot_device_for_user` twice with the identical
`(provider, external id, user)` triple returns the same device id both
times and the second call leaves the device table unchanged (it
resolves by lookup instead of inserting a duplicate row). -/
theorem device_resolution_idempotent (dev : TableSchema)
    (enums : List (String × List String)) (st : DevState) (uid : String)
    (esn : Option String)
    (hid : dev.names.contains "id" = true)
    (husable : dev.names.contains "user_id" = true ∨
      dev.names.contains "name" = true ∨
      (dev.names.contains "provider" = true ∧ dev.names.contains "external_id" = true ∧
        truthyS (enumColVal dev enums "provider" "spot" "spot") = true)) :
    ∃ i st2, ensure_spot_device_for_user dev enums st uid esn = .ok (i, st2) ∧
      ensure_spot_device_for_user dev enums st2 uid esn = .ok (i, st2) := by
  have hidm : "id" ∈ dev.names := by simpa using hid
  cases h1 : lookupByProvider dev st uid (enumColVal dev enums "provider" "spot" "spot")
      (externalIdVal dev esn) with
  | some i =>
    exact ⟨i, st, by simp [ensure_spot_device_for_user, hid, hidm, h1],
      by simp [ensure_spot_device_for_user, hid, hidm, h1]⟩
  | none =>
    cases h2 : lookupByUserName dev st uid (nameVal dev esn) with
    | some i =>
      exact ⟨i, st, by simp [ensure_spot_device_for_user, hid, hidm, h1, h2],
        by simp [ensure_spot_device_for_user, hid, hidm, h1, h2]⟩
    | none =>
      refine ⟨freshId st,
        ⟨st.rows ++ [mkDeviceRow dev enums uid esn (freshId st)], st.nextId + 1⟩,
        by simp [ensure_spot_device_for_user, hid, hidm, h1, h2], ?_⟩
      by_cases hg : (dev.names.contains "provider" = true ∧
          dev.names.contains "external_id" = true ∧ dev.names.contains "id" = true ∧
          truthyS (enumColVal dev enums "provider" "spot" "spot") = true ∧
          truthyS (externalIdVal dev esn) = true)
      · -- the provider lookup of the second call hits the fresh row
        have hk : lookupByProvider dev
            ⟨st.rows ++ [mkDeviceRow dev enums uid esn (freshId st)], st.nextId + 1⟩
            uid (enumColVal dev enums "provider" "spot" "spot")
            (externalIdVal dev esn) = some (freshId st) := by
          unfold lookupByProvider at h1 ⊢
          rw [if_pos hg] at h1 ⊢
          rw [Option.map_eq_none'] at h1
          show ((st.rows ++ [mkDeviceRow dev enums uid esn (freshId st)]).find? _).map _ =
            some (freshId st)
          rw [List.find?_append, h1, Option.none_or, find?_singleton_pos, Option.map_some']
          · rfl
          · simp only [decide_eq_true_iff]
            refine ⟨?_, ?_, ?_⟩
            · rw [mkDeviceRow_provider dev enums uid esn _ (truthyS_isSome hg.2.2.2.1) hg.1]
              simp
            · rw [mkDeviceRow_external_id dev enums uid esn _ hg.2.1]
              simp
            · by_cases hu : dev.names.contains "user_id" = true
              · right
                rw [mkDeviceRow_user_id dev enums uid esn _ hu]
                simp
              · left
                simpa using hu
        simp [ensure_spot_device_for_user, hid, hidm, hk]
      · -- otherwise a lookup column exists, and the name lookup hits
        have hun : dev.names.contains "user_id" = true ∨
            dev.names.contains "name" = true := by
          rcases husable with hu | hn | ⟨hp, he, hpv⟩
          · exact Or.inl hu
          · exact Or.inr hn
          · exact absurd ⟨hp, he, hid, hpv, externalIdVal_truthy dev esn he⟩ hg
        have hguard : dev.names.contains "user_id" = true ∨
            (dev.names.contains "name" = true ∧ truthyS (nameVal dev esn) = true) := by
          rcases hun with hu | hn
          · exact Or.inl hu
          · exact Or.inr ⟨hn, nameVal_truthy dev esn hn⟩
        have hk1 : lookupByProvider dev
            ⟨st.rows ++ [mkDeviceRow dev enums uid esn (freshId st)], st.nextId + 1⟩
            uid (enumColVal dev enums "provider" "spot" "spot")
            (externalIdVal dev esn) = none := by
          unfold lookupByProvider
          rw [if_neg hg]
        have hk2 : lookupByUserName dev
            ⟨st.rows ++ [mkDeviceRow dev enums uid esn (freshId st)], st.nextId + 1⟩
            uid (nameVal dev esn) = some (freshId st) := by
          simp only [lookupByUserName] at h2 ⊢
          rw [if_pos hguard] at h2 ⊢
          rw [Option.map_eq_none'] at h2
          rw [List.find?_append, h2, Option.none_or, find?_singleton_pos,
            Option.map_some']
          · rfl
          · simp only [decide_eq_true_iff]
            constructor
            · by_cases hu : dev.names.contains "user_id" = true
              · right
                rw [mkDeviceRow_user_id dev enums uid esn _ hu]
                simp
              · left
                simpa using hu
            · by_cases hn : (dev.names.contains "name" = true ∧
                  truthyS (nameVal dev esn) = true)
              · right
                rw [mkDeviceRow_name dev enums uid esn _ hn.1]
                simp
              · left
                simp only [Bool.not_eq_true', decide_eq_false_iff_not]
                exact hn
        simp [ensure_spot_device_for_user, hid, hidm, hk1, hk2]

theorem device_resolution_idempotent_witness :
    ∃ i st2, ensure_spot_device_for_user
        ⟨[("id", ⟨"uuid", "uuid", "NO", none⟩),
          ("user_id", ⟨"uuid", "uuid", "NO", none⟩),
          ("type", ⟨"USER-DEFINED", "device_type", "NO", none⟩),
          ("external_id", ⟨"text", "text", "YES", none⟩),
          ("secret", ⟨"text", "text", "YES", none⟩),
          ("created_at", ⟨"timestamp with time zone", "timestamptz", "NO",
            some "now()"⟩)]⟩
        [("device_type", ["spot", "inreach", "other"])]
        ⟨[], 0⟩ "u1" (some "E1") = .ok (i, st2) ∧
      ensure_spot_device_for_user
        ⟨[("id", ⟨"uuid", "uuid", "NO", none⟩),
          ("user_id", ⟨"uuid", "uuid", "NO", none⟩),
          ("type", ⟨"USER-DEFINED", "device_type", "NO", none⟩),
          ("external_id", ⟨"text", "text", "YES", none⟩),
          ("secret", ⟨"text", "text", "YES", none⟩),
          ("created_at", ⟨"timestamp with time zone", "timestamptz", "NO",
            some "now()"⟩)]⟩
        [("device_type", ["spot", "inreach", "other"])]
        st2 "u1" (some "E1") = .ok (i, st2) :=
  device_resolution_idempotent _ _ _ _ _ (by decide) (Or.inl (by decide))
end BT

